import Mathlib

/-!
# Boot progress decoder: status code decoding

A shallow embedding of `pkg/edk2/edk2.go` and `pkg/edk2/PiStatusCode.go`.

Conventions of the embedding.

* Go's fixed-width unsigned integers are natural numbers; a conversion to a
  narrower type is written as an explicit `% 2 ^ w`, and a `uint64` operation
  that can wrap is reduced `% 2 ^ 64`.
* A Go `string` is a Lean `String`, read as its sequence of Unicode code points
  (the UTF-8 text the string holds).  Byte-level library code (`strconv`) sees a
  code point below `0x80` as the byte of that value and a code point from `0x80`
  on as bytes that are all `≥ 0x80`.
* A Go `error` result is an `Option GoError`, `none` standing for `nil`;
  functions with several results return tuples in Go's order.
* A Go `map[K]string` literal is an association list; `m[k]` is `mapIndex`
  (the zero value `""` for a missing key) and `v, ok := m[k]` is `mapIndexOk`.
-/

namespace Edk2

/-! ## Data model (`PiStatusCode.go`) -/

/-- Type and severity of a status code: Go struct `EFIStatusCodeType`
(two `uint8` fields).  The Go field `Type` is `Typ` here, `Type` being a Lean
keyword. -/
structure EFIStatusCodeType where
  Typ : Nat
  Severity : Nat
  deriving DecidableEq, Repr

/-- Class, subclass and operation of a status code value: Go struct
`EFIStatusCodeValue` (`uint8`, `uint8`, `uint16`). -/
structure EFIStatusCodeValue where
  Class : Nat
  Subclass : Nat
  Operation : Nat
  deriving DecidableEq, Repr

/-- Mask of the type byte, bits 0..7. -/
def EFI_STATUS_CODE_TYPE_MASK : Nat := 0x000000FF
/-- Mask of the severity byte, bits 24..31. -/
def EFI_STATUS_CODE_SEVERITY_MASK : Nat := 0xFF000000
/-- Mask of the reserved bits 8..23 of a status code type. -/
def EFI_STATUS_CODE_RESERVED_MASK : Nat := 0x00FFFF00

/-- Mask of the class byte, bits 24..31. -/
def EFI_STATUS_CODE_CLASS_MASK : Nat := 0xFF000000
/-- Mask of the subclass byte, bits 16..23. -/
def EFI_STATUS_CODE_SUBCLASS_MASK : Nat := 0x00FF0000
/-- Mask of the operation half-word, bits 0..15. -/
def EFI_STATUS_CODE_OPERATION_MASK : Nat := 0x0000FFFF

/-- A Go map literal with integer keys and string values. -/
abbrev GoMap := List (Nat × String)

/-- Go's `m[k]` on a `map[K]string`: the stored value, or `""` when `k` is absent. -/
def mapIndex (m : GoMap) (k : Nat) : String :=
  (m.lookup k).getD ""

/-- Go's `v, ok := m[k]`: the stored value and `true`, or `""` and `false`. -/
def mapIndexOk (m : GoMap) (k : Nat) : String × Bool :=
  match m.lookup k with
  | some v => (v, true)
  | none => ("", false)

/-- Table statusTypeDesc (map[uint8]string). -/
def statusTypeDesc : GoMap :=
  [(0x01, "Progress Code"),
   (0x02, "Error Code"),
   (0x03, "Debug Code")]

/-- Table errorSeverityDesc (map[uint8]string). -/
def errorSeverityDesc : GoMap :=
  [(0x40, "Minor Error"),
   (0x80, "Major Error"),
   (0x90, "Uncovered Error"),
   (0xA0, "Uncontained Error")]

/-- Table classCodeDesc (map[uint8]string). -/
def classCodeDesc : GoMap :=
  [(0x00, "Computing"),
   (0x01, "Peripheral"),
   (0x02, "I/O Bus"),
   (0x03, "Software")]

/-- Table subclassComputingCodeDesc (map[uint8]string). -/
def subclassComputingCodeDesc : GoMap :=
  [(0x00, "Unspecified"),
   (0x01, "Host Processor"),
   (0x02, "Firmware Processor"),
   (0x03, "I/O Processor"),
   (0x04, "Cache"),
   (0x05, "Memory"),
   (0x06, "Chipset")]

/-- Table subclassPeripheralCodeDesc (map[uint8]string). -/
def subclassPeripheralCodeDesc : GoMap :=
  [(0x00, "Unspecified"),
   (0x01, "Keyboard"),
   (0x02, "Mouse"),
   (0x03, "Local Console"),
   (0x04, "Remote Console"),
   (0x05, "Serial Port"),
   (0x06, "Parallel Port"),
   (0x07, "Fixed Media"),
   (0x08, "Removable Media"),
   (0x09, "Audio Input"),
   (0x0A, "Audio Output"),
   (0x0B, "LCD Device"),
   (0x0C, "Network"),
   (0x0D, "Docking"),
   (0x0E, "TPM")]

/-- Table subclassIOBusCodeDesc (map[uint8]string). -/
def subclassIOBusCodeDesc : GoMap :=
  [(0x00, "Unspecified"),
   (0x01, "PCI"),
   (0x02, "USB"),
   (0x06, "LPC"),
   (0x07, "SCSI"),
   (0x08, "ATAPI"),
   (0x0B, "SMBUS"),
   (0x0C, "I2C")]

/-- Table subclassSoftwareCodeDesc (map[uint8]string). -/
def subclassSoftwareCodeDesc : GoMap :=
  [(0x00, "Unspecified"),
   (0x01, "SEC"),
   (0x02, "PEI Core"),
   (0x03, "PEI Driver"),
   (0x04, "DXE Core"),
   (0x05, "DXE Boot Driver"),
   (0x06, "DXE Runtime Driver"),
   (0x07, "SMM Driver"),
   (0x08, "EFI Application"),
   (0x09, "OS Loader"),
   (0x0C, "EBC Exception"),
   (0x0D, "X86 Exception"),
   (0x0F, "PEI Service"),
   (0x10, "UEFI Boot Service"),
   (0x11, "UEFI Runtime Service"),
   (0x12, "DXE Service"),
   (0x13, "X64 Exception"),
   (0x14, "ARM Exception")]

/-- Table commonCUProgressCodeDesc (map[uint16]string). -/
def commonCUProgressCodeDesc : GoMap :=
  [(0x0000, "Initialization Begin"),
   (0x0001, "Initialization End")]

/-- Table cUHPProgressCodeDesc (map[uint16]string). -/
def cUHPProgressCodeDesc : GoMap :=
  [(0x0000, "Power On Init"),
   (0x0001, "Cache Init"),
   (0x0002, "RAM Init"),
   (0x0003, "Memory Controller Init"),
   (0x0004, "IO Init"),
   (0x0005, "BSP Select"),
   (0x0006, "BSP Reselect"),
   (0x0007, "AP Init"),
   (0x0008, "SMM Init")]

/-- Table cUCacheProgressCodeDesc (map[uint16]string). -/
def cUCacheProgressCodeDesc : GoMap :=
  [(0x0000, "Presence Detect"),
   (0x0001, "Configuration")]

/-- Table cUMemoryProgressCodeDesc (map[uint16]string). -/
def cUMemoryProgressCodeDesc : GoMap :=
  [(0x0000, "SPD Read"),
   (0x0001, "Presence Detect"),
   (0x0002, "Timing"),
   (0x0003, "Configuring"),
   (0x0004, "Optimizing"),
   (0x0005, "Init"),
   (0x0006, "Test")]

/-- Table cUChipsetProgressCodeDesc (map[uint16]string). -/
def cUChipsetProgressCodeDesc : GoMap :=
  [(0x0000, "PEI CAR South Bridge Initialization"),
   (0x0001, "PEI CAR North Bridge Initialization"),
   (0x0002, "PEI MEM South Bridge Initialization"),
   (0x0003, "PEI MEM North Bridge Initialization"),
   (0x0004, "DXE PCI Host Bridge Initialization"),
   (0x0005, "DXE North Bridge Initialization"),
   (0x0006, "DXE North Bridge SMM Initialization"),
   (0x0007, "DXE South Bridge Runtime Services Initialization"),
   (0x0008, "DXE South Bridge Initialization"),
   (0x0009, "DXE South Bridge SMM Initialization"),
   (0x000A, "DXE South Bridge Devices Initialization")]

/-- Table commonCUErrorCodeDesc (map[uint16]string). -/
def commonCUErrorCodeDesc : GoMap :=
  [(0x0000, "Unspecified"),
   (0x0001, "Disabled"),
   (0x0002, "Not Supported"),
   (0x0003, "Not Detected"),
   (0x0004, "Not Configured")]

/-- Table cUHPErrorCodeDesc (map[uint16]string). -/
def cUHPErrorCodeDesc : GoMap :=
  [(0x0000, "Invalid Type"),
   (0x0001, "Invalid Speed"),
   (0x0002, "Mismatch"),
   (0x0003, "Timer Expired"),
   (0x0004, "Self Test"),
   (0x0005, "Internal"),
   (0x0006, "Thermal"),
   (0x0007, "Low Voltage"),
   (0x0008, "High Voltage"),
   (0x0009, "Cache"),
   (0x000A, "Microcode Update"),
   (0x000B, "Correctable"),
   (0x000C, "Uncorrectable"),
   (0x000D, "No Microcode Update")]

/-- Table cUFPErrorCodeDesc (map[uint16]string). -/
def cUFPErrorCodeDesc : GoMap :=
  [(0x0000, "Hard Fail"),
   (0x0001, "Soft Fail"),
   (0x0002, "Common Error")]

/-- Table cUCacheErrorCodeDesc (map[uint16]string). -/
def cUCacheErrorCodeDesc : GoMap :=
  [(0x0000, "Invalid Type"),
   (0x0001, "Invalid Speed"),
   (0x0002, "Invalid Size"),
   (0x0003, "Mismatch")]

/-- Table cUMemoryErrorCodeDesc (map[uint16]string). -/
def cUMemoryErrorCodeDesc : GoMap :=
  [(0x0000, "Invalid Type"),
   (0x0001, "Invalid Speed"),
   (0x0002, "Correctable"),
   (0x0003, "Uncorrectable"),
   (0x0004, "SPD Fail"),
   (0x0005, "Invalid Size"),
   (0x0006, "Mismatch"),
   (0x0007, "S3 Resume Fail"),
   (0x0008, "Update Fail"),
   (0x0009, "None Detected"),
   (0x000A, "None Useful")]

/-- Table cUChipsetErrorCodeDesc (map[uint16]string). -/
def cUChipsetErrorCodeDesc : GoMap :=
  [(0x0000, "Bad Battery"),
   (0x0001, "DXE North Bridge Error"),
   (0x0002, "DXE South Bridge Error"),
   (0x0003, "Intruder Detect")]

/-- Table commonPProgressCodeDesc (map[uint16]string). -/
def commonPProgressCodeDesc : GoMap :=
  [(0x0000, "Init"),
   (0x0001, "Reset"),
   (0x0002, "Disable"),
   (0x0003, "Presence Detect"),
   (0x0004, "Enable"),
   (0x0005, "Reconfig"),
   (0x0006, "Detected"),
   (0x0007, "Removed")]

/-- Table pKeyBoardProgressCodeDesc (map[uint16]string). -/
def pKeyBoardProgressCodeDesc : GoMap :=
  [(0x0000, "Clear Buffer"),
   (0x0001, "Self Test")]

/-- Table pMouseProgressCodeDesc (map[uint16]string). -/
def pMouseProgressCodeDesc : GoMap :=
  [(0x0000, "Self Test")]

/-- Table pSerialPortProgressCodeDesc (map[uint16]string). -/
def pSerialPortProgressCodeDesc : GoMap :=
  [(0x0000, "Clear Buffer")]

/-- Table commonPErrorCodeDesc (map[uint16]string). -/
def commonPErrorCodeDesc : GoMap :=
  [(0x0000, "Non Specific"),
   (0x0001, "Disabled"),
   (0x0002, "Not Supported"),
   (0x0003, "Not Detected"),
   (0x0004, "Not Configured"),
   (0x0005, "Interface Error"),
   (0x0006, "Controller Error"),
   (0x0007, "Input Error"),
   (0x0008, "Output Error"),
   (0x0009, "Resource Conflict")]

/-- Table pKeyBoardErrorCodeDesc (map[uint16]string). -/
def pKeyBoardErrorCodeDesc : GoMap :=
  [(0x0000, "Locked"),
   (0x0001, "Stuck Key"),
   (0x0002, "Buffer Full")]

/-- Table pMouseErrorCodeDesc (map[uint16]string). -/
def pMouseErrorCodeDesc : GoMap :=
  [(0x0000, "Locked")]

/-- Table commonIOBProgressCodeDesc (map[uint16]string). -/
def commonIOBProgressCodeDesc : GoMap :=
  [(0x0000, "Init"),
   (0x0001, "Reset"),
   (0x0002, "Disable"),
   (0x0003, "Detect"),
   (0x0004, "Enable"),
   (0x0005, "Reconfig"),
   (0x0006, "Hotplug")]

/-- Table iOBPciProgressCodeDesc (map[uint16]string). -/
def iOBPciProgressCodeDesc : GoMap :=
  [(0x0000, "PCI Bus Enumeration"),
   (0x0001, "PCI Resource Allocation"),
   (0x0002, "PCI HPC Initialization")]

/-- Table iOBAtaProgressCodeDesc (map[uint16]string). -/
def iOBAtaProgressCodeDesc : GoMap :=
  [(0x0000, "SMART Enable"),
   (0x0001, "SMART Disable"),
   (0x0002, "SMART Overthreshold"),
   (0x0003, "SMART Underthreshold")]

/-- Table commonIOBErrorCodeDesc (map[uint16]string). -/
def commonIOBErrorCodeDesc : GoMap :=
  [(0x0000, "Non Specific"),
   (0x0001, "Disabled"),
   (0x0002, "Not Supported"),
   (0x0003, "Not Detected"),
   (0x0004, "Not Configured"),
   (0x0005, "Interface Error"),
   (0x0006, "Controller Error"),
   (0x0007, "Read Error"),
   (0x0008, "Write Error"),
   (0x0009, "Resource Conflict")]

/-- Table iOBPciErrorCodeDesc (map[uint16]string). -/
def iOBPciErrorCodeDesc : GoMap :=
  [(0x0000, "PCI PERR"),
   (0x0001, "PCI SERR")]

/-- Table iOBAtaErrorCodeDesc (map[uint16]string). -/
def iOBAtaErrorCodeDesc : GoMap :=
  [(0x0000, "ATA Bus SMART Not Supported"),
   (0x0001, "ATA Bus SMART Disabled")]

/-- Table commonSWProgressCodeDesc (map[uint16]string). -/
def commonSWProgressCodeDesc : GoMap :=
  [(0x0000, "Init"),
   (0x0001, "Load"),
   (0x0002, "Init Begin"),
   (0x0003, "Init End"),
   (0x0004, "Authenticate Begin"),
   (0x0005, "Authenticate End"),
   (0x0006, "Input Wait"),
   (0x0007, "User Setup")]

/-- Table swSecProgressCodeDesc (map[uint16]string). -/
def swSecProgressCodeDesc : GoMap :=
  [(0x0000, "SEC Entry Point"),
   (0x0001, "SEC Handoff To Next")]

/-- Table swPeiCoreProgressCodeDesc (map[uint16]string). -/
def swPeiCoreProgressCodeDesc : GoMap :=
  [(0x0000, "PEI Core Entry Point"),
   (0x0001, "PEI Core Handoff To Next"),
   (0x0002, "PEI Core Return To Last")]

/-- Table swPeiProgressCodeDesc (map[uint16]string). -/
def swPeiProgressCodeDesc : GoMap :=
  [(0x0000, "PEI Recovery Begin"),
   (0x0001, "PEI Capsule Load"),
   (0x0002, "PEI Capsule Start"),
   (0x0003, "PEI Recovery User"),
   (0x0004, "PEI Recovery Auto"),
   (0x0005, "PEI S3 Boot Script"),
   (0x0006, "PEI OS Wake"),
   (0x0007, "PEI S3 Started")]

/-- Table swDxeCoreProgressCodeDesc (map[uint16]string). -/
def swDxeCoreProgressCodeDesc : GoMap :=
  [(0x0000, "DXE Core Entry Point"),
   (0x0001, "DXE Core Handoff To Next"),
   (0x0002, "DXE Core Return To Last"),
   (0x0003, "DXE Core Start Driver"),
   (0x0004, "DXE Core Arch Ready")]

/-- Table swDxeBsProgressCodeDesc (map[uint16]string). -/
def swDxeBsProgressCodeDesc : GoMap :=
  [(0x0000, "DXE BS Legacy OpROM Init"),
   (0x0001, "DXE BS Ready To Boot Event"),
   (0x0002, "DXE BS Legacy Boot Event"),
   (0x0003, "DXE BS Exit Boot Services Event"),
   (0x0004, "DXE BS Virtual Address Change Event"),
   (0x0005, "DXE BS Variable Services Init"),
   (0x0006, "DXE BS Variable Reclaim"),
   (0x0007, "DXE BS Attempt Boot Order Event"),
   (0x0008, "DXE BS Config Reset"),
   (0x0009, "DXE BS CSM Init")]

/-- Table swDxeRtProgressCodeDesc (map[uint16]string). -/
def swDxeRtProgressCodeDesc : GoMap :=
  [(0x0000, "EFI RT Entry Point"),
   (0x0001, "EFI RT Handoff To Next"),
   (0x0002, "EFI RT Return To Last")]

/-- Table swPeiServicesProgressCodeDesc (map[uint16]string). -/
def swPeiServicesProgressCodeDesc : GoMap :=
  [(0x0000, "PEI Service Install PPI"),
   (0x0001, "PEI Service Reinstall PPI"),
   (0x0002, "PEI Service Locate PPI"),
   (0x0003, "PEI Service Notify PPI"),
   (0x0004, "PEI Service Get Boot Mode"),
   (0x0005, "PEI Service Set Boot Mode"),
   (0x0006, "PEI Service Get HOB List"),
   (0x0007, "PEI Service Create HOB"),
   (0x0008, "PEI Service FFS Find Next Volume"),
   (0x0009, "PEI Service FFS Find Next File"),
   (0x000A, "PEI Service FFS Find Section Data"),
   (0x000B, "PEI Service Install PEI Memory"),
   (0x000C, "PEI Service Allocate Pages"),
   (0x000D, "PEI Service Allocate Pool"),
   (0x000E, "PEI Service Copy Mem"),
   (0x000F, "PEI Service Set Mem"),
   (0x0010, "PEI Service Reset System"),
   (0x0013, "PEI Service FFS Find File By Name"),
   (0x0014, "PEI Service FFS Get File Info"),
   (0x0015, "PEI Service FFS Get Volume Info"),
   (0x0016, "PEI Service FFS Register For Shadow")]

/-- Table swBootServicesProgressCodeDesc (map[uint16]string). -/
def swBootServicesProgressCodeDesc : GoMap :=
  [(0x0000, "EFI BS Raise TPL"),
   (0x0001, "EFI BS Restore TPL"),
   (0x0002, "EFI BS Allocate Pages"),
   (0x0003, "EFI BS Free Pages"),
   (0x0004, "EFI BS Get Memory Map"),
   (0x0005, "EFI BS Allocate Pool"),
   (0x0006, "EFI BS Free Pool"),
   (0x0007, "EFI BS Create Event"),
   (0x0008, "EFI BS Set Timer"),
   (0x0009, "EFI BS Wait For Event"),
   (0x000A, "EFI BS Signal Event"),
   (0x000B, "EFI BS Close Event"),
   (0x000C, "EFI BS Check Event"),
   (0x000D, "EFI BS Install Protocol Interface"),
   (0x000E, "EFI BS Reinstall Protocol Interface"),
   (0x000F, "EFI BS Uninstall Protocol Interface"),
   (0x0010, "EFI BS Handle Protocol"),
   (0x0011, "EFI BS PC Handle Protocol"),
   (0x0012, "EFI BS Register Protocol Notify"),
   (0x0013, "EFI BS Locate Handle"),
   (0x0014, "EFI BS Install Configuration Table"),
   (0x0015, "EFI BS Load Image"),
   (0x0016, "EFI BS Start Image"),
   (0x0017, "EFI BS Exit"),
   (0x0018, "EFI BS Unload Image"),
   (0x0019, "EFI BS Exit Boot Services"),
   (0x001A, "EFI BS Get Next Monotonic Count"),
   (0x001B, "EFI BS Stall"),
   (0x001C, "EFI BS Set Watchdog Timer"),
   (0x001D, "EFI BS Connect Controller"),
   (0x001E, "EFI BS Disconnect Controller"),
   (0x001F, "EFI BS Open Protocol"),
   (0x0020, "EFI BS Close Protocol"),
   (0x0021, "EFI BS Open Protocol Information"),
   (0x0022, "EFI BS Protocols Per Handle"),
   (0x0023, "EFI BS Locate Handle Buffer"),
   (0x0024, "EFI BS Locate Protocol"),
   (0x0025, "EFI BS Install Multiple Interfaces"),
   (0x0026, "EFI BS Uninstall Multiple Interfaces"),
   (0x0027, "EFI BS Calculate CRC32"),
   (0x0028, "EFI BS Copy Mem"),
   (0x0029, "EFI BS Set Mem"),
   (0x002A, "EFI BS Create Event Ex")]

/-- Table swRuntimeServicesProgressCodeDesc (map[uint16]string). -/
def swRuntimeServicesProgressCodeDesc : GoMap :=
  [(0x0000, "EFI RS Get Time"),
   (0x0001, "EFI RS Set Time"),
   (0x0002, "EFI RS Get Wakeup Time"),
   (0x0003, "EFI RS Set Wakeup Time"),
   (0x0004, "EFI RS Set Virtual Address Map"),
   (0x0005, "EFI RS Convert Pointer"),
   (0x0006, "EFI RS Get Variable"),
   (0x0007, "EFI RS Get Next Variable Name"),
   (0x0008, "EFI RS Set Variable"),
   (0x0009, "EFI RS Get Next High Monotonic Count"),
   (0x000A, "EFI RS Reset System"),
   (0x000B, "EFI RS Update Capsule"),
   (0x000C, "EFI RS Query Capsule Capabilities"),
   (0x000D, "EFI RS Query Variable Info")]

/-- Table swDxeServicesProgressCodeDesc (map[uint16]string). -/
def swDxeServicesProgressCodeDesc : GoMap :=
  [(0x0000, "EFI DS Add Memory Space"),
   (0x0001, "EFI DS Allocate Memory Space"),
   (0x0002, "EFI DS Free Memory Space"),
   (0x0003, "EFI DS Remove Memory Space"),
   (0x0004, "EFI DS Get Memory Space Descriptor"),
   (0x0005, "EFI DS Set Memory Space Attributes"),
   (0x0006, "EFI DS Get Memory Space Map"),
   (0x0007, "EFI DS Add IO Space"),
   (0x0008, "EFI DS Allocate IO Space"),
   (0x0009, "EFI DS Free IO Space"),
   (0x000A, "EFI DS Remove IO Space"),
   (0x000B, "EFI DS Get IO Space Descriptor"),
   (0x000C, "EFI DS Get IO Space Map"),
   (0x000D, "EFI DS Dispatch"),
   (0x000E, "EFI DS Schedule"),
   (0x000F, "EFI DS Trust"),
   (0x0010, "EFI DS Process Firmware Volume")]

/-- Table commonSWErrorCodeDesc (map[uint16]string). -/
def commonSWErrorCodeDesc : GoMap :=
  [(0x0000, "Non-specific"),
   (0x0001, "Load Error"),
   (0x0002, "Invalid Parameter"),
   (0x0003, "Unsupported"),
   (0x0004, "Invalid Buffer"),
   (0x0005, "Out of Resources"),
   (0x0006, "Aborted"),
   (0x0007, "Illegal Software State"),
   (0x0008, "Illegal Hardware State"),
   (0x0009, "Start Error"),
   (0x000A, "Bad Date Time"),
   (0x000B, "CFG Invalid"),
   (0x000C, "CFG CLR Request"),
   (0x000D, "CFG Default"),
   (0x000E, "PWD Invalid"),
   (0x000F, "PWD CLR Request"),
   (0x0010, "PWD Cleared"),
   (0x0011, "Event Log Full"),
   (0x0012, "Write Protected"),
   (0x0013, "FV Corrupted"),
   (0x0014, "Inconsistent Memory Map")]

/-- Table swPeiCoreErrorCodeDesc (map[uint16]string). -/
def swPeiCoreErrorCodeDesc : GoMap :=
  [(0x0000, "DXE Core Corrupt"),
   (0x0001, "DXEIPL Not Found"),
   (0x0002, "Memory Not Installed")]

/-- Table swPeiErrorCodeDesc (map[uint16]string). -/
def swPeiErrorCodeDesc : GoMap :=
  [(0x0000, "No Recovery Capsule"),
   (0x0001, "Invalid Capsule Descriptor"),
   (0x0002, "S3 Resume PPI Not Found"),
   (0x0003, "S3 Boot Script Error"),
   (0x0004, "S3 OS Wake Error"),
   (0x0005, "S3 Resume Failed"),
   (0x0006, "Recovery PPI Not Found"),
   (0x0007, "Recovery Failed"),
   (0x0008, "S3 Resume Error"),
   (0x0009, "Invalid Capsule")]

/-- Table swDxeFoundationErrorCodeDesc (map[uint16]string). -/
def swDxeFoundationErrorCodeDesc : GoMap :=
  [(0x0000, "No Arch")]

/-- Table swDxeBsErrorCodeDesc (map[uint16]string). -/
def swDxeBsErrorCodeDesc : GoMap :=
  [(0x0000, "Legacy OpROM No Space"),
   (0x0001, "Invalid Password"),
   (0x0002, "Boot Option Load Error"),
   (0x0003, "Boot Option Failed"),
   (0x0004, "Invalid IDE Password")]

/-- Table swEBCErrorCodeDesc (map[uint16]string). -/
def swEBCErrorCodeDesc : GoMap :=
  [(0x0000, "Undefined"),
   (0x0001, "Divide Error"),
   (0x0002, "Debug"),
   (0x0003, "Breakpoint"),
   (0x0004, "Overflow"),
   (0x0005, "Invalid Opcode"),
   (0x0006, "Stack Fault"),
   (0x0007, "Alignment Check"),
   (0x0008, "Instruction Encoding"),
   (0x0009, "Bad Break"),
   (0x000A, "Step")]

/-- Table swIA32ErrorCodeDesc (map[uint16]string). -/
def swIA32ErrorCodeDesc : GoMap :=
  [(0x0000, "Divide Error"),
   (0x0001, "Debug"),
   (0x0002, "NMI"),
   (0x0003, "Breakpoint"),
   (0x0004, "Overflow"),
   (0x0005, "Bound"),
   (0x0006, "Invalid Opcode"),
   (0x0008, "Double Fault"),
   (0x000A, "Invalid TSS"),
   (0x000B, "Segment Not Present"),
   (0x000C, "Stack Fault"),
   (0x000D, "GP Fault"),
   (0x000E, "Page Fault"),
   (0x0010, "FP Error"),
   (0x0011, "Alignment Check"),
   (0x0012, "Machine Check"),
   (0x0013, "SIMD")]

/-- Table swIPFErrorCodeDesc (map[uint16]string). -/
def swIPFErrorCodeDesc : GoMap :=
  [(0x0000, "ALT DTLB"),
   (0x0001, "DNESTED TLB"),
   (0x0002, "Breakpoint"),
   (0x0003, "External Interrupt"),
   (0x0004, "Gen Except"),
   (0x0005, "NAT Consumption"),
   (0x0006, "Debug Except"),
   (0x0007, "Unaligned Access"),
   (0x0008, "FP Fault"),
   (0x0009, "FP Trap"),
   (0x000A, "Taken Branch"),
   (0x000B, "Single Step")]

/-- Table swPeiServiceErrorCodeDesc (map[uint16]string). -/
def swPeiServiceErrorCodeDesc : GoMap :=
  [(0x0000, "Reset Not Available"),
   (0x0001, "Memory Installed Twice")]

/-- Table swDxeServiceErrorCodeDesc (map[uint16]string). -/
def swDxeServiceErrorCodeDesc : GoMap :=
  [(0x0005, "Begin Connecting Drivers"),
   (0x0006, "Verifying Password")]

/-- Table swDxeRtDriverProgressCodeDesc (map[uint16]string). -/
def swDxeRtDriverProgressCodeDesc : GoMap :=
  [(0x0000, "S0"),
   (0x0001, "S1"),
   (0x0002, "S2"),
   (0x0003, "S3"),
   (0x0004, "S4"),
   (0x0005, "S5")]

/-- Table swX64ExceptionErrorCodeDesc (map[uint16]string). -/
def swX64ExceptionErrorCodeDesc : GoMap :=
  [(0x0000, "Divide Error"),
   (0x0001, "Debug"),
   (0x0002, "NMI"),
   (0x0003, "Breakpoint"),
   (0x0004, "Overflow"),
   (0x0005, "Bound"),
   (0x0006, "Invalid Opcode"),
   (0x0008, "Double Fault"),
   (0x000A, "Invalid TSS"),
   (0x000B, "Segment Not Present"),
   (0x000C, "Stack Fault"),
   (0x000D, "GP Fault"),
   (0x000E, "Page Fault"),
   (0x0010, "FP Error"),
   (0x0011, "Alignment Check"),
   (0x0012, "Machine Check"),
   (0x0013, "SIMD")]

/-- Table swArmExceptionErrorCodeDesc (map[uint16]string). -/
def swArmExceptionErrorCodeDesc : GoMap :=
  [(0x0000, "Reset"),
   (0x0001, "Undefined Instruction"),
   (0x0002, "Software Interrupt"),
   (0x0003, "Prefetch Abort"),
   (0x0004, "Data Abort"),
   (0x0005, "Reserved"),
   (0x0006, "IRQ"),
   (0x0007, "FIQ")]

/-! ## Library functions used by the decoder (Go standard library) -/

/-- Go's `unicode.IsSpace`: the Latin-1 white space `\t \n \v \f \r`, space,
U+0085 and U+00A0, and beyond Latin-1 the code points of the Unicode
`White_Space` property. -/
def isSpace (r : Char) : Bool :=
  let n := r.toNat
  if n ≤ 0xFF then
    n == 0x09 || n == 0x0A || n == 0x0B || n == 0x0C || n == 0x0D || n == 0x20
      || n == 0x85 || n == 0xA0
  else
    n == 0x1680 || (0x2000 ≤ n && n ≤ 0x200A) || n == 0x2028 || n == 0x2029
      || n == 0x202F || n == 0x205F || n == 0x3000

/-- Go's `strings.TrimSpace`: the string without its leading and trailing
white space (as `unicode.IsSpace` defines it). -/
def TrimSpace (s : String) : String :=
  ⟨((s.data.dropWhile isSpace).reverse.dropWhile isSpace).reverse⟩

/-- Go's `strings.HasPrefix`. -/
def HasPrefix (s pre : String) : Bool :=
  pre.data.isPrefixOf s.data

/-- Go's `strings.TrimPrefix`: `s` without the leading `pre` when it has it,
otherwise `s` unchanged. -/
def TrimPrefix (s pre : String) : String :=
  if HasPrefix s pre then ⟨s.data.drop pre.data.length⟩ else s

/-- The sentinel errors a `strconv.NumError` wraps. -/
inductive NumErr where
  | ErrSyntax
  | ErrRange
  | ErrBase
  | ErrBitSize
  deriving DecidableEq, Repr

/-- Go's `strconv.NumError`: the failing function, its input and the cause. -/
structure NumError where
  Func : String
  Num : String
  Err : NumErr
  deriving DecidableEq, Repr

/-- Go errors of the decoder: a `strconv.NumError`, or the result of
`fmt.Errorf(format, cause)` with a single `%v` verb. -/
inductive GoError where
  | numError (e : NumError)
  | errorf (format : String) (cause : GoError)
  deriving DecidableEq, Repr

/-- The helper `lower` of `strconv`: `c | ('x' - 'X')` on a byte. -/
def lower (c : Nat) : Nat := c ||| 0x20

/-- The digit value `strconv.ParseUint` gives to one character, before the
comparison with the base: `c - '0'` for `'0'..'9'`, `lower(c) - 'a' + 10` when
`lower(c)` is in `'a'..'z'`, nothing otherwise.  A code point from `0x80` on
is a sequence of bytes `≥ 0x80`, the first of which takes the `default` branch. -/
def digitVal (c : Char) : Option Nat :=
  let b := c.toNat
  if 0x80 ≤ b then none
  else if 0x30 ≤ b ∧ b ≤ 0x39 then some (b - 0x30)
  else if 0x61 ≤ lower b ∧ lower b ≤ 0x7A then some (lower b - 0x61 + 10)
  else none

/-- The digit loop of `strconv.ParseUint` (for a base other than 0, where no
underscore is accepted), from the accumulator `n` over the remaining
characters.  Returns the value and the cause of failure, if any; as in Go the
value is `0` with a syntax error and `maxVal` with a range error. -/
def parseUintLoop (base cutoff maxVal : Nat) : Nat → List Char → Nat × Option NumErr
  | n, [] => (n, none)
  | n, c :: cs =>
    match digitVal c with
    | none => (0, some NumErr.ErrSyntax)
    | some d =>
      if d ≥ base % 256 then (0, some NumErr.ErrSyntax)
      else if n ≥ cutoff then (maxVal, some NumErr.ErrRange)
      else
        let n0 := (n * base) % 2 ^ 64
        let n1 := (n0 + d) % 2 ^ 64
        if n1 < n0 ∨ n1 > maxVal then (maxVal, some NumErr.ErrRange)
        else parseUintLoop base cutoff maxVal n1 cs

/-- Go's `strconv.ParseUint(s, base, bitSize)` for an explicit base (the
decoder always passes base 16 and bit size 32; base 0, which selects the base
from a prefix of `s`, is reported like any base outside `2..36`). -/
def ParseUint (s : String) (base bitSize : Nat) : Nat × Option NumError :=
  if s = "" then (0, some ⟨"ParseUint", s, NumErr.ErrSyntax⟩)
  else if ¬ (2 ≤ base ∧ base ≤ 36) then (0, some ⟨"ParseUint", s, NumErr.ErrBase⟩)
  else if bitSize > 64 then (0, some ⟨"ParseUint", s, NumErr.ErrBitSize⟩)
  else
    let bits := if bitSize = 0 then 64 else bitSize
    let cutoff := (2 ^ 64 - 1) / base + 1
    let maxVal := 2 ^ bits - 1
    match parseUintLoop base cutoff maxVal 0 s.data with
    | (n, none) => (n, none)
    | (n, some e) => (n, some ⟨"ParseUint", s, e⟩)

/-! ## Bit-field decoding (`edk2.go`) -/

/-- Go `decodeStatusValue`: split a 32-bit status code value into class,
subclass and operation. -/
def decodeStatusValue (value : Nat) : EFIStatusCodeValue :=
  { Class := ((value &&& EFI_STATUS_CODE_CLASS_MASK) >>> 24) % 2 ^ 8
    Subclass := ((value &&& EFI_STATUS_CODE_SUBCLASS_MASK) >>> 16) % 2 ^ 8
    Operation := (value &&& EFI_STATUS_CODE_OPERATION_MASK) % 2 ^ 16 }

/-- Go `extractStatusCodeValue`: strip an optional `V`, parse 32-bit
hexadecimal, decode the fields.  On failure the zero struct and an error. -/
def extractStatusCodeValue (codeString : String) : EFIStatusCodeValue × Option GoError :=
  let codeString := TrimPrefix codeString "V"
  match ParseUint codeString 16 32 with
  | (_, some err) =>
    (⟨0, 0, 0⟩, some (GoError.errorf "invalid status code format: %v" (GoError.numError err)))
  | (value, none) => (decodeStatusValue (value % 2 ^ 32), none)

/-- Go `decodeStatusType`: split a 32-bit status code type into type and
severity. -/
def decodeStatusType (value : Nat) : EFIStatusCodeType :=
  { Typ := (value &&& EFI_STATUS_CODE_TYPE_MASK) % 2 ^ 8
    Severity := ((value &&& EFI_STATUS_CODE_SEVERITY_MASK) >>> 24) % 2 ^ 8 }

/-- Go `extractStatusCodeType`: strip an optional `C`, parse 32-bit
hexadecimal, decode the fields.  On failure the zero struct and an error. -/
def extractStatusCodeType (codeString : String) : EFIStatusCodeType × Option GoError :=
  let codeString := TrimPrefix codeString "C"
  match ParseUint codeString 16 32 with
  | (_, some err) =>
    (⟨0, 0⟩, some (GoError.errorf "invalid status code type format: %v" (GoError.numError err)))
  | (value, none) => (decodeStatusType (value % 2 ^ 32), none)

/-! ## Description lookup (`edk2.go`) -/

/-- Go's `x &^ y` on `uint16`: the bits of `x` that are not set in `y`. -/
def andNot16 (x y : Nat) : Nat := x &&& (0xFFFF ^^^ y)

/-- Go `decodeOperation`: the operation description of a decoded status value.
A `switch` on the subclass without a `default` falls out of the outer `switch`
to the final `return "Unknown"`. -/
def decodeOperation (statusValue : EFIStatusCodeValue) (isError : Bool) : String :=
  match statusValue.Class with
  | 0x00 => -- Computing
    if statusValue.Operation < 0x1000 then
      if isError then mapIndex commonCUErrorCodeDesc statusValue.Operation
      else mapIndex commonCUProgressCodeDesc statusValue.Operation
    else if statusValue.Operation ≥ 0x8000 then
      if isError then "OEM Specific Error Code" else "OEM Specific Progress Code"
    else
      let subclassOperation := andNot16 statusValue.Operation 0x1000
      if isError then
        match statusValue.Subclass with
        | 0x00 => "Unspecified Computing Operation"
        | 0x01 => mapIndex cUHPErrorCodeDesc subclassOperation
        | 0x02 => mapIndex cUFPErrorCodeDesc subclassOperation
        | 0x03 => "I/O Processor Progress Code"
        | 0x04 => mapIndex cUCacheErrorCodeDesc subclassOperation
        | 0x05 => mapIndex cUMemoryErrorCodeDesc subclassOperation
        | 0x06 => mapIndex cUChipsetErrorCodeDesc subclassOperation
        | _ => "Unknown Computing Error Code"
      else
        match statusValue.Subclass with
        | 0x00 => "Unspecified Computing Operation"
        | 0x01 => mapIndex cUHPProgressCodeDesc subclassOperation
        | 0x02 => "Firmware Processor Progress Code"
        | 0x03 => "I/O Processor Progress Code"
        | 0x04 => mapIndex cUCacheProgressCodeDesc subclassOperation
        | 0x05 => mapIndex cUMemoryProgressCodeDesc subclassOperation
        | 0x06 => mapIndex cUChipsetProgressCodeDesc subclassOperation
        | _ => "Unknown Computing Progress Code"
  | 0x01 => -- Peripheral
    if statusValue.Operation < 0x1000 then
      if isError then mapIndex commonPErrorCodeDesc statusValue.Operation
      else mapIndex commonPProgressCodeDesc statusValue.Operation
    else if statusValue.Operation ≥ 0x8000 then
      if isError then "OEM Specific Error Code" else "OEM Specific Progress Code"
    else
      let subclassOperation := andNot16 statusValue.Operation 0x1000
      if isError then
        match statusValue.Subclass with
        | 0x00 => "Unspecified Peripheral Operation"
        | 0x01 => mapIndex pKeyBoardErrorCodeDesc subclassOperation
        | 0x02 => mapIndex pMouseErrorCodeDesc subclassOperation
        | 0x03 => "Unknown Local Console Error Code"
        | 0x04 => "Unknown Remote Console Error Code"
        | 0x05 => "Unknown Serial Port Error Code"
        | 0x06 => "Unknown Parallel Port Error Code"
        | 0x07 => "Unknown Fixed Media Error Code"
        | 0x08 => "Unknown Removable Media Error Code"
        | 0x09 => "Unknown Audio Input Error Code"
        | 0x0A => "Unknown Audio Output Error Code"
        | 0x0B => "Unknown LCD Device Error Code"
        | 0x0C => "Unknown Network Error Code"
        | 0x0D => "Unknown Docking Error Code"
        | 0x0E => "Unknown TPM Error Code"
        | _ => "Unknown"
      else
        match statusValue.Subclass with
        | 0x00 => "Unspecified Peripheral Progress Code"
        | 0x01 => mapIndex pKeyBoardProgressCodeDesc subclassOperation
        | 0x02 => mapIndex pMouseProgressCodeDesc subclassOperation
        | 0x03 => "Unknown Local Console Progress Code"
        | 0x04 => "Unknown Remote Console Progress Code"
        | 0x05 => mapIndex pSerialPortProgressCodeDesc subclassOperation
        | 0x06 => "Unknown Parallel Port Progress Code"
        | 0x07 => "Unknown Fixed Media Progress Code"
        | 0x08 => "Unknown Removable Media Progress Code"
        | 0x09 => "Unknown Audio Input Progress Code"
        | 0x0A => "Unknown Audio Output Progress Code"
        | 0x0B => "Unknown LCD Device Progress Code"
        | 0x0C => "Unknown Network Progress Code"
        | 0x0D => "Unknown Docking Progress Code"
        | 0x0E => "Unknown TPM Progress Code"
        | _ => "Unknown"
  | 0x02 => -- I/O Bus
    if statusValue.Operation < 0x1000 then
      if isError then mapIndex commonIOBErrorCodeDesc statusValue.Operation
      else mapIndex commonIOBProgressCodeDesc statusValue.Operation
    else if statusValue.Operation ≥ 0x8000 then
      if isError then "OEM Specific Error Code" else "OEM Specific Progress Code"
    else
      let subclassOperation := andNot16 statusValue.Operation 0x1000
      if isError then
        match statusValue.Subclass with
        | 0x00 => "Unspecified I/O Bus Error Code"
        | 0x01 => mapIndex iOBPciErrorCodeDesc subclassOperation
        | 0x02 => "Unknown USB Error Code"
        | 0x06 => "Unknown LPC Error Code"
        | 0x07 => "Unknown SCSI Error Code"
        | 0x08 => mapIndex iOBAtaErrorCodeDesc subclassOperation
        | 0x0B => "Unknown SMBUS Error Code"
        | 0x0C => "Unknown I2C Error Code"
        | _ => "Unknown"
      else
        match statusValue.Subclass with
        | 0x00 => "Unspecified I/O Bus Progress Code"
        | 0x01 => mapIndex iOBPciProgressCodeDesc subclassOperation
        | 0x02 => "Unknown USB Progress Code"
        | 0x06 => "Unknown LPC Progress Code"
        | 0x07 => "Unknown SCSI Progress Code"
        | 0x08 => mapIndex iOBAtaProgressCodeDesc subclassOperation
        | 0x0B => "Unknown SMBUS Progress Code"
        | 0x0C => "Unknown I2C Progress Code"
        | _ => "Unknown"
  | 0x03 => -- Software
    if statusValue.Operation < 0x1000 then
      if isError then mapIndex commonSWErrorCodeDesc statusValue.Operation
      else mapIndex commonSWProgressCodeDesc statusValue.Operation
    else if statusValue.Operation ≥ 0x8000 then
      if isError then "OEM Specific Error Code" else "OEM Specific Progress Code"
    else
      let subclassOperation := andNot16 statusValue.Operation 0x1000
      if isError then
        match statusValue.Subclass with
        | 0x00 => "Unspecified Software Error"
        | 0x01 => "Unknown SEC Error Code"
        | 0x02 => mapIndex swPeiCoreErrorCodeDesc subclassOperation
        | 0x03 => mapIndex swPeiErrorCodeDesc subclassOperation
        | 0x04 => mapIndex swDxeFoundationErrorCodeDesc subclassOperation
        | 0x05 => mapIndex swDxeBsErrorCodeDesc subclassOperation
        | 0x06 => "Unknown DXE Runtime Driver Error Code"
        | 0x07 => "Unknown SMM Driver Error Code"
        | 0x08 => "Unknown EFI Application Error Code"
        | 0x09 => "Unknown OS Loader Error Code"
        | 0x0C => mapIndex swEBCErrorCodeDesc subclassOperation
        | 0x0D => mapIndex swIA32ErrorCodeDesc subclassOperation
        | 0x0E => mapIndex swIPFErrorCodeDesc subclassOperation
        | 0x0F => mapIndex swPeiServiceErrorCodeDesc subclassOperation
        | 0x10 => mapIndex swDxeServiceErrorCodeDesc subclassOperation
        | 0x11 => mapIndex swDxeRtDriverProgressCodeDesc subclassOperation
        | 0x12 => "Unknown DXE Service Error Code"
        | 0x13 => mapIndex swX64ExceptionErrorCodeDesc subclassOperation
        | 0x14 => mapIndex swArmExceptionErrorCodeDesc subclassOperation
        | _ => "Unknown Software Error Code"
      else
        match statusValue.Subclass with
        | 0x00 => "Unspecified Software Progress"
        | 0x01 => mapIndex swSecProgressCodeDesc subclassOperation
        | 0x02 => mapIndex swPeiCoreProgressCodeDesc subclassOperation
        | 0x03 => mapIndex swPeiProgressCodeDesc subclassOperation
        | 0x04 => mapIndex swDxeCoreProgressCodeDesc subclassOperation
        | 0x05 => mapIndex swDxeBsProgressCodeDesc subclassOperation
        | 0x06 => mapIndex swDxeRtProgressCodeDesc subclassOperation
        | 0x07 => "Unknown SMM Driver Progress Code"
        | 0x08 => "Unknown EFI Application Progress Code"
        | 0x09 => "Unknown OS Loader Progress Code"
        | 0x0C => "Unknown EBC Exception Progress Code"
        | 0x0D => "Unknown IA32 Exception Progress Code"
        | 0x0E => "Unknown IPF Exception Progress Code"
        | 0x0F => mapIndex swPeiServicesProgressCodeDesc subclassOperation
        | 0x10 => mapIndex swBootServicesProgressCodeDesc subclassOperation
        | 0x11 => mapIndex swRuntimeServicesProgressCodeDesc subclassOperation
        | 0x12 => mapIndex swDxeServicesProgressCodeDesc subclassOperation
        | 0x13 => "Unknown X64 Exception Progress Code"
        | 0x14 => "Unknown ARM Exception Progress Code"
        | _ => "Unknown Software Progress Code"
  | _ => "Unknown"

/-- Go `DecodeStatusValue`: class, subclass and operation descriptions of a
status value string, and the error.  The variable `ok` set by the class lookup
is the one the subclass lookup overwrites, so a class without a subclass table
keeps the class lookup's `ok`. -/
def DecodeStatusValue (statusCodeValue : String) (isError : Bool) :
    String × String × String × Option GoError :=
  let statusCodeValue := TrimSpace statusCodeValue
  match extractStatusCodeValue statusCodeValue with
  | (_, some err) =>
    ("", "", "", some (GoError.errorf "failed to extract status code value: %v" err))
  | (value, none) =>
    let (classDesc, ok) := mapIndexOk classCodeDesc value.Class
    let classDesc := if !ok then "Unknown" else classDesc
    let (subclassDesc, ok) :=
      match value.Class with
      | 0x00 => mapIndexOk subclassComputingCodeDesc value.Subclass
      | 0x01 => mapIndexOk subclassPeripheralCodeDesc value.Subclass
      | 0x02 => mapIndexOk subclassIOBusCodeDesc value.Subclass
      | 0x03 => mapIndexOk subclassSoftwareCodeDesc value.Subclass
      | _ => ("", ok)
    let subclassDesc := if !ok then "Unknown" else subclassDesc
    let operationDesc := decodeOperation value isError
    let operationDesc := if operationDesc = "" then "Unknown" else operationDesc
    (classDesc, subclassDesc, operationDesc, none)

/-- Go `DecodeStatusType`: type and severity descriptions of a status type
string, and the error. -/
def DecodeStatusType (statusCodeType : String) : String × String × Option GoError :=
  let statusCodeType := TrimSpace statusCodeType
  match extractStatusCodeType statusCodeType with
  | (_, some err) =>
    ("", "", some (GoError.errorf "failed to extract status code type: %v" err))
  | (codeType, none) =>
    let typeDesc := mapIndex statusTypeDesc codeType.Typ
    let severityDesc := mapIndex errorSeverityDesc codeType.Severity
    (typeDesc, severityDesc, none)

/-! ## UUID validation (`edk2.go`, Go `regexp`) -/

/-- One character matcher of a regular expression: a character class given by
its ranges (`[a-fA-F0-9]` has the ranges `a-f`, `A-F`, `0-9`) or a literal
character. -/
inductive RegexAtom where
  | charClass (ranges : List (Char × Char))
  | literal (c : Char)
  deriving DecidableEq, Repr

/-- An atom with an exact repetition count: `atom{count}` (a plain atom has
count 1). -/
structure RegexPiece where
  atom : RegexAtom
  count : Nat
  deriving DecidableEq, Repr

/-- Whether a character matches an atom. -/
def RegexAtom.accepts : RegexAtom → Char → Bool
  | RegexAtom.charClass ranges, c =>
    ranges.any (fun r => r.1.toNat ≤ c.toNat && c.toNat ≤ r.2.toNat)
  | RegexAtom.literal l, c => c == l

/-- Match of a sequence of pieces against the whole remaining text: every piece
consumes exactly `count` characters its atom accepts, and after the last piece
the text must have ended (the `$` of the pattern, which in Go matches at the
end of the text only). -/
def matchPieces : List RegexPiece → List Char → Bool
  | [], cs => cs.isEmpty
  | p :: ps, cs =>
    decide (p.count ≤ cs.length) && (cs.take p.count).all p.atom.accepts
      && matchPieces ps (cs.drop p.count)

/-- Go's `(*Regexp).MatchString` for a pattern of the shape `^ pieces $`: the
match has to start at the beginning of the text (`^`) and end at its end (`$`),
so the text as a whole has to match the pieces. -/
def MatchString (pieces : List RegexPiece) (s : String) : Bool :=
  matchPieces pieces s.data

/-- The character class `[a-fA-F0-9]`. -/
def hexClass : RegexAtom :=
  RegexAtom.charClass [('a', 'f'), ('A', 'F'), ('0', '9')]

/-- The compiled pattern of `IsValidUUID`, between `^` and `$`: 8 characters
of `[a-fA-F0-9]`, `-`, 4 of them, `-`, 4 of them, `-`, 4 of them, `-`, 12 of
them. -/
def uuidPattern : List RegexPiece :=
  [⟨hexClass, 8⟩, ⟨RegexAtom.literal '-', 1⟩, ⟨hexClass, 4⟩, ⟨RegexAtom.literal '-', 1⟩,
   ⟨hexClass, 4⟩, ⟨RegexAtom.literal '-', 1⟩, ⟨hexClass, 4⟩, ⟨RegexAtom.literal '-', 1⟩,
   ⟨hexClass, 12⟩]

/-- Go `IsValidUUID`: whether the string matches the UUID pattern. -/
def IsValidUUID (uuid : String) : Bool :=
  MatchString uuidPattern uuid

/-! ## Notions of the specification -/

/-- A hexadecimal digit: `0-9`, `A-F` or `a-f`. -/
def isHexDigit (c : Char) : Bool :=
  let n := c.toNat
  (0x30 ≤ n && n ≤ 0x39) || (0x41 ≤ n && n ≤ 0x46) || (0x61 ≤ n && n ≤ 0x66)

/-- The value of a hexadecimal digit (meaningful on `isHexDigit` characters). -/
def hexDigitValue (c : Char) : Nat :=
  let n := c.toNat
  if n ≤ 0x39 then n - 0x30 else if n ≤ 0x46 then n - 0x41 + 10 else n - 0x61 + 10

/-- The number a digit sequence denotes in base 16 when read after the
digits of `n`. -/
def hexValueFrom (n : Nat) (cs : List Char) : Nat :=
  cs.foldl (fun a c => 16 * a + hexDigitValue c) n

/-- The number a string of hexadecimal digits denotes. -/
def hexValue (s : String) : Nat := hexValueFrom 0 s.data

/-- The text the specification rejects as a 32-bit hexadecimal number: it is
empty, or has a character that is not a hexadecimal digit, or is all
hexadecimal digits and denotes a number above `0xFFFFFFFF`. -/
def MalformedHex32 (r : String) : Prop :=
  r = "" ∨ (∃ c ∈ r.data, isHexDigit c = false)
    ∨ ((∀ c ∈ r.data, isHexDigit c = true) ∧ hexValue r > 0xFFFFFFFF)

instance (r : String) : Decidable (MalformedHex32 r) := by
  unfold MalformedHex32; infer_instance

/-- The upper-case hexadecimal digit of a value below 16. -/
def hexDigitUpper (d : Nat) : Char :=
  if d < 10 then Char.ofNat (0x30 + d) else Char.ofNat (0x41 + (d - 10))

/-- The number `v` written as exactly 8 upper-case hexadecimal digits, most
significant first (what `%08X` prints for a 32-bit value). -/
def formatHex8 (v : Nat) : String :=
  ⟨[hexDigitUpper (v / 16 ^ 7 % 16), hexDigitUpper (v / 16 ^ 6 % 16),
    hexDigitUpper (v / 16 ^ 5 % 16), hexDigitUpper (v / 16 ^ 4 % 16),
    hexDigitUpper (v / 16 ^ 3 % 16), hexDigitUpper (v / 16 ^ 2 % 16),
    hexDigitUpper (v / 16 ^ 1 % 16), hexDigitUpper (v / 16 ^ 0 % 16)]⟩

/-- The common operation table of a class in the given mode (tier
`operation < 0x1000`); the empty table for a class outside `0..3`. -/
def commonTable (cls : Nat) (isError : Bool) : GoMap :=
  match cls, isError with
  | 0x00, true => commonCUErrorCodeDesc
  | 0x00, false => commonCUProgressCodeDesc
  | 0x01, true => commonPErrorCodeDesc
  | 0x01, false => commonPProgressCodeDesc
  | 0x02, true => commonIOBErrorCodeDesc
  | 0x02, false => commonIOBProgressCodeDesc
  | 0x03, true => commonSWErrorCodeDesc
  | 0x03, false => commonSWProgressCodeDesc
  | _, _ => []

/-- The operation table `decodeOperation` indexes for a (class, subclass, mode)
cell in the tier `0x1000 ≤ operation < 0x8000`, when the cell has one: the cases
of its inner `switch` statements that return `T[subclassOperation]`. -/
def operationTable (cls sub : Nat) (isError : Bool) : Option GoMap :=
  match cls, isError with
  | 0x00, true =>
    match sub with
    | 0x01 => some cUHPErrorCodeDesc
    | 0x02 => some cUFPErrorCodeDesc
    | 0x04 => some cUCacheErrorCodeDesc
    | 0x05 => some cUMemoryErrorCodeDesc
    | 0x06 => some cUChipsetErrorCodeDesc
    | _ => none
  | 0x00, false =>
    match sub with
    | 0x01 => some cUHPProgressCodeDesc
    | 0x04 => some cUCacheProgressCodeDesc
    | 0x05 => some cUMemoryProgressCodeDesc
    | 0x06 => some cUChipsetProgressCodeDesc
    | _ => none
  | 0x01, true =>
    match sub with
    | 0x01 => some pKeyBoardErrorCodeDesc
    | 0x02 => some pMouseErrorCodeDesc
    | _ => none
  | 0x01, false =>
    match sub with
    | 0x01 => some pKeyBoardProgressCodeDesc
    | 0x02 => some pMouseProgressCodeDesc
    | 0x05 => some pSerialPortProgressCodeDesc
    | _ => none
  | 0x02, true =>
    match sub with
    | 0x01 => some iOBPciErrorCodeDesc
    | 0x08 => some iOBAtaErrorCodeDesc
    | _ => none
  | 0x02, false =>
    match sub with
    | 0x01 => some iOBPciProgressCodeDesc
    | 0x08 => some iOBAtaProgressCodeDesc
    | _ => none
  | 0x03, true =>
    match sub with
    | 0x02 => some swPeiCoreErrorCodeDesc
    | 0x03 => some swPeiErrorCodeDesc
    | 0x04 => some swDxeFoundationErrorCodeDesc
    | 0x05 => some swDxeBsErrorCodeDesc
    | 0x0C => some swEBCErrorCodeDesc
    | 0x0D => some swIA32ErrorCodeDesc
    | 0x0E => some swIPFErrorCodeDesc
    | 0x0F => some swPeiServiceErrorCodeDesc
    | 0x10 => some swDxeServiceErrorCodeDesc
    | 0x11 => some swDxeRtDriverProgressCodeDesc
    | 0x13 => some swX64ExceptionErrorCodeDesc
    | 0x14 => some swArmExceptionErrorCodeDesc
    | _ => none
  | 0x03, false =>
    match sub with
    | 0x01 => some swSecProgressCodeDesc
    | 0x02 => some swPeiCoreProgressCodeDesc
    | 0x03 => some swPeiProgressCodeDesc
    | 0x04 => some swDxeCoreProgressCodeDesc
    | 0x05 => some swDxeBsProgressCodeDesc
    | 0x06 => some swDxeRtProgressCodeDesc
    | 0x0F => some swPeiServicesProgressCodeDesc
    | 0x10 => some swBootServicesProgressCodeDesc
    | 0x11 => some swRuntimeServicesProgressCodeDesc
    | 0x12 => some swDxeServicesProgressCodeDesc
    | _ => none
  | _, _ => none

/-- The subclass description table `DecodeStatusValue` selects for a class;
the empty table for a class outside `0..3`. -/
def subclassTable (cls : Nat) : GoMap :=
  match cls with
  | 0x00 => subclassComputingCodeDesc
  | 0x01 => subclassPeripheralCodeDesc
  | 0x02 => subclassIOBusCodeDesc
  | 0x03 => subclassSoftwareCodeDesc
  | _ => []

/-- The word a fallback literal uses for the mode. -/
def modeWord (isError : Bool) : String :=
  if isError then "Error" else "Progress"

/-- The shape of a UUID text: exactly 36 characters, `-` at the (0-based)
positions 8, 13, 18 and 23, and a hexadecimal digit at every other position. -/
def UuidShape (s : String) : Prop :=
  s.data.length = 36 ∧ ∀ i, i < 36 →
    if i = 8 ∨ i = 13 ∨ i = 18 ∨ i = 23 then s.data.getD i ' ' = '-'
    else isHexDigit (s.data.getD i ' ') = true

instance (s : String) : Decidable (UuidShape s) := by
  unfold UuidShape; infer_instance

/-- An ASCII space, tab or newline. -/
def isAsciiBlank (c : Char) : Bool := c == ' ' || c == '\t' || c == '\n'

/-- The description contains the word `Progress` (as a substring). -/
def HasProgress (d : String) : Prop := "Progress".data <:+: d.data

instance (d : String) : Decidable (HasProgress d) := by
  unfold HasProgress; infer_instance

/-- Every description a table stores is non-empty. -/
def NonEmptyValues (m : GoMap) : Prop := ∀ p ∈ m, p.2 ≠ ""

instance (m : GoMap) : Decidable (NonEmptyValues m) := by
  unfold NonEmptyValues; infer_instance

/-! ## Lemmas: bit fields -/

theorem and_mask_mod (x k : Nat) : (x &&& (2 ^ k - 1)) % 2 ^ k = x &&& (2 ^ k - 1) := by
  rw [Nat.and_pow_two_sub_one_eq_mod]; exact Nat.mod_mod _ _

theorem shiftRight_and (a b i : Nat) : (a &&& b) >>> i = (a >>> i) &&& (b >>> i) := by
  apply Nat.eq_of_testBit_eq
  intro j
  simp only [Nat.testBit_shiftRight, Nat.testBit_and]

/-! ## Lemmas: hexadecimal parsing -/

set_option maxRecDepth 100000 in
theorem digit_byte_table : ∀ b : Nat, b < 128 →
    Option.filter (fun d => decide (d < 16))
      (if 0x30 ≤ b ∧ b ≤ 0x39 then some (b - 0x30)
       else if 0x61 ≤ lower b ∧ lower b ≤ 0x7A then some (lower b - 0x61 + 10)
       else none)
    = (if ((0x30 ≤ b && b ≤ 0x39) || (0x41 ≤ b && b ≤ 0x46) || (0x61 ≤ b && b ≤ 0x66)) = true
       then some (if b ≤ 0x39 then b - 0x30 else if b ≤ 0x46 then b - 0x41 + 10 else b - 0x61 + 10)
       else none) := by
  decide

theorem digitVal_filter (c : Char) :
    (digitVal c).filter (fun d => decide (d < 16))
      = if isHexDigit c then some (hexDigitValue c) else none := by
  unfold digitVal isHexDigit hexDigitValue
  generalize c.toNat = b
  by_cases hb : b < 128
  · have h := digit_byte_table b hb
    have h80 : ¬ (0x80 ≤ b) := by omega
    simp only [h80, if_false]
    exact h
  · have h80 : 0x80 ≤ b := by omega
    simp only [h80, if_true, Option.filter]
    have : ((0x30 ≤ b && b ≤ 0x39) || (0x41 ≤ b && b ≤ 0x46) || (0x61 ≤ b && b ≤ 0x66)) = false := by
      simp; omega
    simp [this]

theorem hexValueFrom_cons (n : Nat) (c : Char) (cs : List Char) :
    hexValueFrom n (c :: cs) = hexValueFrom (16 * n + hexDigitValue c) cs := rfl

theorem le_hexValueFrom (cs : List Char) : ∀ n, n ≤ hexValueFrom n cs := by
  induction cs with
  | nil => intro n; exact Nat.le_refl n
  | cons c cs ih =>
    intro n
    rw [hexValueFrom_cons]
    have := ih (16 * n + hexDigitValue c)
    omega

theorem digitVal_cases (c : Char) :
    (isHexDigit c = true ∧ digitVal c = some (hexDigitValue c) ∧ hexDigitValue c < 16)
    ∨ (isHexDigit c = false ∧ (digitVal c = none ∨ ∃ d, digitVal c = some d ∧ 16 ≤ d)) := by
  have h := digitVal_filter c
  cases hd : digitVal c with
  | none =>
    rw [hd] at h
    right
    refine ⟨?_, Or.inl rfl⟩
    cases hx : isHexDigit c with
    | false => rfl
    | true => rw [hx] at h; simp [Option.filter] at h
  | some d =>
    rw [hd] at h
    by_cases hlt : d < 16
    · left
      cases hx : isHexDigit c with
      | false => rw [hx] at h; simp [Option.filter, hlt] at h
      | true =>
        rw [hx] at h
        simp [Option.filter, hlt] at h
        subst h
        exact ⟨rfl, rfl, hlt⟩
    · right
      cases hx : isHexDigit c with
      | false => exact ⟨rfl, Or.inr ⟨d, rfl, by omega⟩⟩
      | true => rw [hx] at h; simp [Option.filter, hlt] at h

theorem parseUintLoop_ok (cutoff maxVal : Nat) (hc : maxVal < cutoff)
    (hm : 16 * maxVal + 16 ≤ 2 ^ 64) (cs : List Char) :
    ∀ n, n ≤ maxVal → (∀ c ∈ cs, isHexDigit c = true) → hexValueFrom n cs ≤ maxVal →
      parseUintLoop 16 cutoff maxVal n cs = (hexValueFrom n cs, none) := by
  induction cs with
  | nil => intro n _ _ _; rfl
  | cons c cs ih =>
    intro n hn hall hval
    have hcx : isHexDigit c = true := hall c (List.mem_cons_self c cs)
    rcases digitVal_cases c with ⟨_, hd, hlt⟩ | ⟨hf, _⟩
    · rw [hexValueFrom_cons] at hval
      have hle := le_hexValueFrom cs (16 * n + hexDigitValue c)
      have h0 : (n * 16) % 2 ^ 64 = n * 16 := Nat.mod_eq_of_lt (by omega)
      have h1 : (n * 16 + hexDigitValue c) % 2 ^ 64 = 16 * n + hexDigitValue c := by
        rw [Nat.mod_eq_of_lt (by omega)]; omega
      have hrec := ih (16 * n + hexDigitValue c) (by omega)
        (fun c' hc' => hall c' (List.mem_cons_of_mem c hc')) hval
      simp only [parseUintLoop, hd, h0, h1]
      rw [if_neg (by omega), if_neg (by omega), if_neg (by omega), hrec, hexValueFrom_cons]
    · rw [hcx] at hf; exact absurd hf (by decide)

theorem parseUintLoop_err (cutoff maxVal : Nat) (hc : maxVal < cutoff)
    (hm : 16 * maxVal + 16 ≤ 2 ^ 64) (cs : List Char) :
    ∀ n, n ≤ maxVal → ¬ ((∀ c ∈ cs, isHexDigit c = true) ∧ hexValueFrom n cs ≤ maxVal) →
      (parseUintLoop 16 cutoff maxVal n cs).2 ≠ none := by
  induction cs with
  | nil =>
    intro n hn h
    exact absurd ⟨fun c hc => absurd hc (List.not_mem_nil c), hn⟩ h
  | cons c cs ih =>
    intro n hn h
    rcases digitVal_cases c with ⟨hx, hd, hlt⟩ | ⟨hf, hd | ⟨d, hd, hge⟩⟩
    · have h0 : (n * 16) % 2 ^ 64 = n * 16 := Nat.mod_eq_of_lt (by omega)
      have h1 : (n * 16 + hexDigitValue c) % 2 ^ 64 = 16 * n + hexDigitValue c := by
        rw [Nat.mod_eq_of_lt (by omega)]; omega
      simp only [parseUintLoop, hd, h0, h1]
      rw [if_neg (by omega), if_neg (by omega)]
      by_cases hbig : 16 * n + hexDigitValue c < n * 16 ∨ 16 * n + hexDigitValue c > maxVal
      · rw [if_pos hbig]; simp
      · rw [if_neg hbig]
        apply ih (16 * n + hexDigitValue c) (by omega)
        rintro ⟨hall, hval⟩
        apply h
        refine ⟨?_, by rw [hexValueFrom_cons]; exact hval⟩
        intro c' hc'
        rcases List.mem_cons.mp hc' with rfl | hmem
        · exact hx
        · exact hall c' hmem
    · simp [parseUintLoop, hd]
    · simp only [parseUintLoop, hd]
      rw [if_pos (by omega)]; simp

theorem string_eq_empty_iff (s : String) : s = "" ↔ s.data = [] := by
  constructor
  · intro h; rw [h]
  · intro h; cases s; simp at h; subst h; rfl

theorem ParseUint_ok (s : String) (hne : s.data ≠ [])
    (hall : ∀ c ∈ s.data, isHexDigit c = true) (hval : hexValue s ≤ 0xFFFFFFFF) :
    ParseUint s 16 32 = (hexValue s, none) := by
  have hs : ¬ s = "" := fun h => hne ((string_eq_empty_iff s).mp h)
  have hloop := parseUintLoop_ok ((2 ^ 64 - 1) / 16 + 1) (2 ^ 32 - 1) (by norm_num) (by norm_num)
    s.data 0 (by norm_num) hall hval
  unfold ParseUint
  rw [if_neg hs, if_neg (by omega), if_neg (by omega)]
  simp only [show ¬ (32 = 0) by omega, if_false]
  rw [hloop]
  rfl

theorem ParseUint_err (s : String)
    (h : ¬ (s.data ≠ [] ∧ (∀ c ∈ s.data, isHexDigit c = true) ∧ hexValue s ≤ 0xFFFFFFFF)) :
    ∃ e, (ParseUint s 16 32).2 = some e := by
  unfold ParseUint
  by_cases hs : s = ""
  · rw [if_pos hs]; exact ⟨_, rfl⟩
  · rw [if_neg hs, if_neg (by omega), if_neg (by omega)]
    simp only [show ¬ (32 = 0) by omega, if_false]
    have hne : s.data ≠ [] := fun hd => hs ((string_eq_empty_iff s).mpr hd)
    have hloop := parseUintLoop_err ((2 ^ 64 - 1) / 16 + 1) (2 ^ 32 - 1) (by norm_num)
      (by norm_num) s.data 0 (by norm_num) (fun hh => h ⟨hne, hh.1, hh.2⟩)
    generalize parseUintLoop 16 ((2 ^ 64 - 1) / 16 + 1) (2 ^ 32 - 1) 0 s.data = r at hloop
    rcases r with ⟨n, _ | e⟩
    · exact absurd rfl hloop
    · exact ⟨_, rfl⟩

theorem hexDigitUpper_spec : ∀ d : Nat, d < 16 →
    isHexDigit (hexDigitUpper d) = true ∧ hexDigitValue (hexDigitUpper d) = d := by
  decide

theorem extract_ok (s : String) (hne : (TrimPrefix s "V").data ≠ [])
    (hall : ∀ c ∈ (TrimPrefix s "V").data, isHexDigit c = true)
    (hval : hexValue (TrimPrefix s "V") ≤ 0xFFFFFFFF) :
    extractStatusCodeValue s = (decodeStatusValue (hexValue (TrimPrefix s "V")), none) := by
  unfold extractStatusCodeValue
  simp only [ParseUint_ok _ hne hall hval]
  rw [Nat.mod_eq_of_lt (by omega)]

theorem extract_err (s : String)
    (h : ¬ ((TrimPrefix s "V").data ≠ [] ∧ (∀ c ∈ (TrimPrefix s "V").data, isHexDigit c = true)
      ∧ hexValue (TrimPrefix s "V") ≤ 0xFFFFFFFF)) :
    ∃ e, extractStatusCodeValue s = (⟨0, 0, 0⟩, some e) := by
  obtain ⟨e, he⟩ := ParseUint_err _ h
  have hp : ParseUint (TrimPrefix s "V") 16 32 = ((ParseUint (TrimPrefix s "V") 16 32).1, some e) :=
    Prod.ext rfl he
  unfold extractStatusCodeValue
  simp only []
  rw [hp]
  exact ⟨_, rfl⟩

theorem TrimPrefix_append (p x : String) : TrimPrefix (p ++ x) p = x := by
  unfold TrimPrefix HasPrefix
  simp

theorem formatHex8_value (v : Nat) (hv : v < 2 ^ 32) :
    (∀ c ∈ (formatHex8 v).data, isHexDigit c = true) ∧ hexValue (formatHex8 v) = v := by
  have h := fun i => hexDigitUpper_spec (v / 16 ^ i % 16) (Nat.mod_lt _ (by norm_num))
  constructor
  · intro c hc
    simp only [formatHex8, List.mem_cons, List.mem_singleton, List.not_mem_nil, or_false] at hc
    rcases hc with rfl | rfl | rfl | rfl | rfl | rfl | rfl | rfl
    · exact (h 7).1
    · exact (h 6).1
    · exact (h 5).1
    · exact (h 4).1
    · exact (h 3).1
    · exact (h 2).1
    · exact (h 1).1
    · exact (h 0).1
  · simp only [hexValue, formatHex8, hexValueFrom, List.foldl, (h 7).2, (h 6).2, (h 5).2, (h 4).2,
      (h 3).2, (h 2).2, (h 1).2, (h 0).2]
    norm_num
    omega


/-! ## Lemmas: the decode entry points -/

/-- Well-formed text of a 32-bit hexadecimal number. -/
theorem not_malformed_iff (r : String) :
    ¬ MalformedHex32 r ↔
      (r.data ≠ [] ∧ (∀ c ∈ r.data, isHexDigit c = true) ∧ hexValue r ≤ 0xFFFFFFFF) := by
  unfold MalformedHex32
  rw [string_eq_empty_iff]
  constructor
  · intro h
    have h1 : r.data ≠ [] := fun he => h (Or.inl he)
    have h2 : ∀ c ∈ r.data, isHexDigit c = true := by
      intro c hc
      cases hx : isHexDigit c with
      | true => rfl
      | false => exact absurd (Or.inr (Or.inl ⟨c, hc, hx⟩)) h
    have h3 : hexValue r ≤ 0xFFFFFFFF := by
      by_contra hgt
      exact h (Or.inr (Or.inr ⟨h2, by omega⟩))
    exact ⟨h1, h2, h3⟩
  · rintro ⟨h1, h2, h3⟩ (he | ⟨c, hc, hx⟩ | ⟨_, hgt⟩)
    · exact h1 he
    · rw [h2 c hc] at hx; exact absurd hx (by decide)
    · omega

theorem extractType_ok (s : String) (hne : (TrimPrefix s "C").data ≠ [])
    (hall : ∀ c ∈ (TrimPrefix s "C").data, isHexDigit c = true)
    (hval : hexValue (TrimPrefix s "C") ≤ 0xFFFFFFFF) :
    extractStatusCodeType s = (decodeStatusType (hexValue (TrimPrefix s "C")), none) := by
  unfold extractStatusCodeType
  simp only [ParseUint_ok _ hne hall hval]
  rw [Nat.mod_eq_of_lt (by omega)]

theorem extractType_err (s : String)
    (h : ¬ ((TrimPrefix s "C").data ≠ [] ∧ (∀ c ∈ (TrimPrefix s "C").data, isHexDigit c = true)
      ∧ hexValue (TrimPrefix s "C") ≤ 0xFFFFFFFF)) :
    ∃ e, extractStatusCodeType s = (⟨0, 0⟩, some e) := by
  obtain ⟨e, he⟩ := ParseUint_err _ h
  have hp : ParseUint (TrimPrefix s "C") 16 32 = ((ParseUint (TrimPrefix s "C") 16 32).1, some e) :=
    Prod.ext rfl he
  unfold extractStatusCodeType
  simp only []
  rw [hp]
  exact ⟨_, rfl⟩

theorem DecodeStatusValue_of_err (s : String) (isError : Bool) (v : EFIStatusCodeValue)
    (e : GoError) (h : extractStatusCodeValue (TrimSpace s) = (v, some e)) :
    DecodeStatusValue s isError
      = ("", "", "", some (GoError.errorf "failed to extract status code value: %v" e)) := by
  unfold DecodeStatusValue
  simp only []
  rw [h]

theorem DecodeStatusValue_of_ok (s : String) (isError : Bool) (v : EFIStatusCodeValue)
    (h : extractStatusCodeValue (TrimSpace s) = (v, none)) :
    (DecodeStatusValue s isError).2.2.2 = none
    ∧ (DecodeStatusValue s isError).2.2.1
        = (if decodeOperation v isError = "" then "Unknown" else decodeOperation v isError) := by
  unfold DecodeStatusValue
  simp only []
  rw [h]
  exact ⟨rfl, rfl⟩

theorem DecodeStatusType_of_err (s : String) (v : EFIStatusCodeType)
    (e : GoError) (h : extractStatusCodeType (TrimSpace s) = (v, some e)) :
    DecodeStatusType s
      = ("", "", some (GoError.errorf "failed to extract status code type: %v" e)) := by
  unfold DecodeStatusType
  simp only []
  rw [h]

theorem DecodeStatusType_of_ok (s : String) (v : EFIStatusCodeType)
    (h : extractStatusCodeType (TrimSpace s) = (v, none)) :
    DecodeStatusType s
      = (mapIndex statusTypeDesc v.Typ, mapIndex errorSeverityDesc v.Severity, none) := by
  unfold DecodeStatusType
  simp only []
  rw [h]

theorem isSpace_of_isHexDigit (c : Char) (h : isHexDigit c = true) : isSpace c = false := by
  unfold isHexDigit at h
  unfold isSpace
  generalize c.toNat = n at h ⊢
  simp only [Bool.or_eq_true, Bool.and_eq_true, decide_eq_true_eq] at h
  have hn : n ≤ 0xFF := by omega
  simp only [hn, if_true]
  simp only [Bool.or_eq_false_iff, beq_eq_false_iff_ne, ne_eq]
  omega

theorem dropWhile_of_all_false (p : Char → Bool) (l : List Char) (h : ∀ c ∈ l, p c = false) :
    l.dropWhile p = l := by
  cases l with
  | nil => rfl
  | cons a t => simp [List.dropWhile, h a (List.mem_cons_self a t)]

theorem TrimSpace_of_no_space (s : String) (h : ∀ c ∈ s.data, isSpace c = false) :
    TrimSpace s = s := by
  unfold TrimSpace
  rw [dropWhile_of_all_false isSpace s.data h,
    dropWhile_of_all_false isSpace s.data.reverse (fun c hc => h c (List.mem_reverse.mp hc)),
    List.reverse_reverse]

theorem TrimPrefix_data (s p : String) :
    (TrimPrefix s p).data = s.data ∨ s.data = p.data ++ (TrimPrefix s p).data := by
  unfold TrimPrefix HasPrefix
  by_cases h : p.data.isPrefixOf s.data = true
  · right
    rw [if_pos h]
    rw [List.isPrefixOf_iff_prefix] at h
    obtain ⟨t, ht⟩ := h
    rw [← ht]; simp
  · left; rw [if_neg h]

theorem extract_none_valid (s : String) (h : (extractStatusCodeValue s).2 = none) :
    (TrimPrefix s "V").data ≠ [] ∧ (∀ c ∈ (TrimPrefix s "V").data, isHexDigit c = true)
      ∧ hexValue (TrimPrefix s "V") ≤ 0xFFFFFFFF := by
  by_contra hn
  obtain ⟨e, he⟩ := extract_err s hn
  rw [he] at h
  exact absurd h (by simp)

theorem TrimSpace_of_extract_none (s : String) (h : (extractStatusCodeValue s).2 = none) :
    TrimSpace s = s := by
  obtain ⟨_, hall, _⟩ := extract_none_valid s h
  apply TrimSpace_of_no_space
  intro c hc
  rcases TrimPrefix_data s "V" with hd | hd
  · rw [← hd] at hc; exact isSpace_of_isHexDigit c (hall c hc)
  · rw [hd] at hc
    rcases List.mem_append.mp hc with hv | hr
    · simp at hv; subst hv; decide
    · exact isSpace_of_isHexDigit c (hall c hr)

theorem lookup_mem (m : GoMap) (k : Nat) (v : String) (h : m.lookup k = some v) : (k, v) ∈ m := by
  induction m with
  | nil => simp [List.lookup] at h
  | cons p t ih =>
    obtain ⟨a, b⟩ := p
    by_cases hk : k = a
    · subst hk
      simp [List.lookup] at h
      subst h
      exact List.mem_cons_self _ _
    · have : (k == a) = false := by simpa using hk
      simp only [List.lookup, this] at h
      exact List.mem_cons_of_mem _ (ih h)

theorem mapIndexOk_ne_empty (m : GoMap) (hm : NonEmptyValues m) (k : Nat) :
    (if !(mapIndexOk m k).2 then "Unknown" else (mapIndexOk m k).1) ≠ "" := by
  unfold mapIndexOk
  cases hl : m.lookup k with
  | none => decide
  | some v =>
    have := hm _ (lookup_mem m k v hl)
    simpa using this

theorem DecodeStatusValue_class_subclass (s : String) (isError : Bool) (v : EFIStatusCodeValue)
    (h : extractStatusCodeValue (TrimSpace s) = (v, none)) :
    (DecodeStatusValue s isError).1
        = (if !(mapIndexOk classCodeDesc v.Class).2 then "Unknown"
            else (mapIndexOk classCodeDesc v.Class).1)
    ∧ (DecodeStatusValue s isError).2.1
        = (if !(match v.Class with
              | 0x00 => mapIndexOk subclassComputingCodeDesc v.Subclass
              | 0x01 => mapIndexOk subclassPeripheralCodeDesc v.Subclass
              | 0x02 => mapIndexOk subclassIOBusCodeDesc v.Subclass
              | 0x03 => mapIndexOk subclassSoftwareCodeDesc v.Subclass
              | _ => ("", (mapIndexOk classCodeDesc v.Class).2)).2 then "Unknown"
            else (match v.Class with
              | 0x00 => mapIndexOk subclassComputingCodeDesc v.Subclass
              | 0x01 => mapIndexOk subclassPeripheralCodeDesc v.Subclass
              | 0x02 => mapIndexOk subclassIOBusCodeDesc v.Subclass
              | 0x03 => mapIndexOk subclassSoftwareCodeDesc v.Subclass
              | _ => ("", (mapIndexOk classCodeDesc v.Class).2)).1) := by
  unfold DecodeStatusValue
  simp only []
  rw [h]
  exact ⟨rfl, rfl⟩

theorem classCodeDesc_miss (c : Nat) (h0 : c ≠ 0) (h1 : c ≠ 1) (h2 : c ≠ 2) (h3 : c ≠ 3) :
    mapIndexOk classCodeDesc c = ("", false) := by
  have e0 : (c == 0) = false := by simpa using h0
  have e1 : (c == 1) = false := by simpa using h1
  have e2 : (c == 2) = false := by simpa using h2
  have e3 : (c == 3) = false := by simpa using h3
  simp [mapIndexOk, classCodeDesc, List.lookup, e0, e1, e2, e3]

/-! ## Lemmas: the operation tiers -/

theorem decodeOperation_unknown_class (c sc op : Nat) (isError : Bool) (hc : 4 ≤ c) :
    decodeOperation ⟨c, sc, op⟩ isError = "Unknown" := by
  obtain ⟨n, rfl⟩ : ∃ n, c = n + 4 := ⟨c - 4, by omega⟩
  rfl

theorem decodeOperation_common (c sc op : Nat) (isError : Bool) (hc : c ≤ 3) (hop : op < 0x1000) :
    decodeOperation ⟨c, sc, op⟩ isError = mapIndex (commonTable c isError) op := by
  interval_cases c <;> cases isError <;> simp [decodeOperation, commonTable, hop]

theorem decodeOperation_oem (c sc op : Nat) (isError : Bool) (hc : c ≤ 3) (hop : 0x8000 ≤ op) :
    decodeOperation ⟨c, sc, op⟩ isError
      = (if isError then "OEM Specific Error Code" else "OEM Specific Progress Code") := by
  have h1 : ¬ op < 0x1000 := by omega
  interval_cases c <;> cases isError <;> simp [decodeOperation, h1, hop]

theorem mapIndex_or_unknown (m : GoMap) (hm : NonEmptyValues m) (k : Nat) :
    (if mapIndex m k = "" then "Unknown" else mapIndex m k) = (m.lookup k).getD "Unknown" := by
  unfold mapIndex
  cases hl : m.lookup k with
  | none => rfl
  | some v =>
    have hv : v ≠ "" := hm _ (lookup_mem m k v hl)
    simp [hv]

theorem commonTable_nonEmpty (c : Nat) (isError : Bool) (hc : c ≤ 3) :
    NonEmptyValues (commonTable c isError) := by
  interval_cases c <;> cases isError <;> decide

theorem commonTable_lookup_0FFF (c : Nat) (isError : Bool) :
    (commonTable c isError).lookup 0x0FFF = none := by
  by_cases hc : c ≤ 3
  · interval_cases c <;> cases isError <;> decide
  · obtain ⟨n, rfl⟩ : ∃ n, c = n + 4 := ⟨c - 4, by omega⟩
    cases isError <;> rfl

theorem DecodeStatusValue_common_aux (s : String) (isError : Bool) (v : EFIStatusCodeValue)
    (h : extractStatusCodeValue (TrimSpace s) = (v, none)) (hc : v.Class ≤ 3)
    (hop : v.Operation < 0x1000) :
    (DecodeStatusValue s isError).2.2.1
      = ((commonTable v.Class isError).lookup v.Operation).getD "Unknown" := by
  rw [(DecodeStatusValue_of_ok s isError v h).2]
  obtain ⟨c, sc, op⟩ := v
  rw [decodeOperation_common c sc op isError hc hop]
  exact mapIndex_or_unknown _ (commonTable_nonEmpty c isError hc) op

/-! # Main results -/

/-! ## Bit-field decoding -/

/-- C1: for every 32-bit unsigned `v`, `decodeStatusValue v` has
`Class = (v >> 24) & 0xFF`, `Subclass = (v >> 16) & 0xFF` and
`Operation = v & 0xFFFF`. -/
theorem decodeStatusValue_fields (v : Nat) (hv : v < 2 ^ 32) :
    (decodeStatusValue v).Class = (v >>> 24) &&& 0xFF
    ∧ (decodeStatusValue v).Subclass = (v >>> 16) &&& 0xFF
    ∧ (decodeStatusValue v).Operation = v &&& 0xFFFF := by
  have _ := hv
  refine ⟨?_, ?_, ?_⟩
  · show ((v &&& 0xFF000000) >>> 24) % 2 ^ 8 = (v >>> 24) &&& 0xFF
    rw [shiftRight_and]
    exact and_mask_mod (v >>> 24) 8
  · show ((v &&& 0x00FF0000) >>> 16) % 2 ^ 8 = (v >>> 16) &&& 0xFF
    rw [shiftRight_and]
    exact and_mask_mod (v >>> 16) 8
  · show (v &&& 0xFFFF) % 2 ^ 16 = v &&& 0xFFFF
    exact and_mask_mod v 16

/-- Witness of C1 at `v = 0x03058002`: class `0x03`, subclass `0x05`,
operation `0x8002`. -/
theorem decodeStatusValue_fields_witness :
    (0x03058002 : Nat) < 2 ^ 32
    ∧ (decodeStatusValue 0x03058002).Class = (0x03058002 >>> 24) &&& 0xFF
    ∧ (decodeStatusValue 0x03058002).Subclass = (0x03058002 >>> 16) &&& 0xFF
    ∧ (decodeStatusValue 0x03058002).Operation = 0x03058002 &&& 0xFFFF :=
  ⟨by decide, decodeStatusValue_fields 0x03058002 (by decide)⟩

/-- C2: for every 32-bit unsigned `v`, `decodeStatusType v` has
`Type = v & 0xFF` and `Severity = (v >> 24) & 0xFF`; bits 8..23 of `v` do not
influence the result: clearing them leaves it unchanged. -/
theorem decodeStatusType_fields (v : Nat) (hv : v < 2 ^ 32) :
    (decodeStatusType v).Typ = v &&& 0xFF
    ∧ (decodeStatusType v).Severity = (v >>> 24) &&& 0xFF
    ∧ decodeStatusType (v &&& 0xFF0000FF) = decodeStatusType v := by
  have _ := hv
  refine ⟨?_, ?_, ?_⟩
  · show (v &&& 0xFF) % 2 ^ 8 = v &&& 0xFF
    exact and_mask_mod v 8
  · show ((v &&& 0xFF000000) >>> 24) % 2 ^ 8 = (v >>> 24) &&& 0xFF
    rw [shiftRight_and]
    exact and_mask_mod (v >>> 24) 8
  · have h1 : (v &&& 0xFF0000FF) &&& 0x000000FF = v &&& 0x000000FF := by
      rw [Nat.and_assoc]; rfl
    have h2 : (v &&& 0xFF0000FF) &&& 0xFF000000 = v &&& 0xFF000000 := by
      rw [Nat.and_assoc]; rfl
    show EFIStatusCodeType.mk _ _ = EFIStatusCodeType.mk _ _
    show EFIStatusCodeType.mk (((v &&& 0xFF0000FF) &&& 0x000000FF) % 2 ^ 8)
        ((((v &&& 0xFF0000FF) &&& 0xFF000000) >>> 24) % 2 ^ 8)
      = EFIStatusCodeType.mk ((v &&& 0x000000FF) % 2 ^ 8) (((v &&& 0xFF000000) >>> 24) % 2 ^ 8)
    rw [h1, h2]

/-- Witness of C2 at `v = 0x80ABCD02`: type `0x02`, severity `0x80`. -/
theorem decodeStatusType_fields_witness :
    (0x80ABCD02 : Nat) < 2 ^ 32
    ∧ (decodeStatusType 0x80ABCD02).Typ = 0x80ABCD02 &&& 0xFF
    ∧ (decodeStatusType 0x80ABCD02).Severity = (0x80ABCD02 >>> 24) &&& 0xFF
    ∧ decodeStatusType (0x80ABCD02 &&& 0xFF0000FF) = decodeStatusType 0x80ABCD02 :=
  ⟨by decide, decodeStatusType_fields 0x80ABCD02 (by decide)⟩

/-! ## Hexadecimal parsing -/

/-- C3: for every 32-bit unsigned `v`, `extractStatusCodeValue` applied to
`"V"` followed by `v` written as exactly 8 upper-case hexadecimal digits returns
no error and the value `decodeStatusValue v`. -/
theorem extractStatusCodeValue_formatHex8 (v : Nat) (hv : v < 2 ^ 32) :
    extractStatusCodeValue ("V" ++ formatHex8 v) = (decodeStatusValue v, none) := by
  have hf := formatHex8_value v hv
  have ht : TrimPrefix ("V" ++ formatHex8 v) "V" = formatHex8 v := TrimPrefix_append _ _
  have := extract_ok ("V" ++ formatHex8 v) (by rw [ht]; simp [formatHex8])
    (by rw [ht]; exact hf.1) (by rw [ht, hf.2]; omega)
  rw [this, ht, hf.2]

/-- Witness of C3 at `v = 0x03020003`, whose text is `"V03020003"`. -/
theorem extractStatusCodeValue_formatHex8_witness :
    (0x03020003 : Nat) < 2 ^ 32
    ∧ extractStatusCodeValue ("V" ++ formatHex8 0x03020003)
        = (decodeStatusValue 0x03020003, none) :=
  ⟨by decide, extractStatusCodeValue_formatHex8 0x03020003 (by decide)⟩

/-- C4: `DecodeStatusValue s isError` (resp. `DecodeStatusType s`) returns a
non-nil error if and only if, after trimming the surrounding white space of `s`
and removing one leading `"V"` (resp. `"C"`) when present, the remainder is
empty, or contains a character outside `0-9`, `a-f`, `A-F`, or denotes a
number greater than `0xFFFFFFFF`; whenever the error is non-nil every returned
description is the empty string.  In particular `"ZZZZ"`, `"V"` (resp. `"C"`)
and `""` are rejected. -/
theorem decode_error_iff_malformed (s : String) (isError : Bool) :
    ((DecodeStatusValue s isError).2.2.2 ≠ none
        ↔ MalformedHex32 (TrimPrefix (TrimSpace s) "V"))
    ∧ ((DecodeStatusValue s isError).2.2.2 ≠ none →
        (DecodeStatusValue s isError).1 = "" ∧ (DecodeStatusValue s isError).2.1 = ""
          ∧ (DecodeStatusValue s isError).2.2.1 = "")
    ∧ ((DecodeStatusType s).2.2 ≠ none ↔ MalformedHex32 (TrimPrefix (TrimSpace s) "C"))
    ∧ ((DecodeStatusType s).2.2 ≠ none →
        (DecodeStatusType s).1 = "" ∧ (DecodeStatusType s).2.1 = "")
    ∧ (DecodeStatusValue "ZZZZ" isError).2.2.2 ≠ none
    ∧ (DecodeStatusValue "V" isError).2.2.2 ≠ none
    ∧ (DecodeStatusValue "" isError).2.2.2 ≠ none
    ∧ (DecodeStatusType "ZZZZ").2.2 ≠ none
    ∧ (DecodeStatusType "C").2.2 ≠ none
    ∧ (DecodeStatusType "").2.2 ≠ none := by
  have hV : (MalformedHex32 (TrimPrefix (TrimSpace s) "V") →
        ∃ e, DecodeStatusValue s isError = ("", "", "", some e))
      ∧ (¬ MalformedHex32 (TrimPrefix (TrimSpace s) "V") →
        (DecodeStatusValue s isError).2.2.2 = none) := by
    constructor
    · intro hm
      obtain ⟨e, he⟩ := extract_err (TrimSpace s)
        (fun hh => ((not_malformed_iff _).mpr hh) hm)
      exact ⟨_, DecodeStatusValue_of_err s isError _ e he⟩
    · intro hm
      obtain ⟨h1, h2, h3⟩ := (not_malformed_iff _).mp hm
      exact (DecodeStatusValue_of_ok s isError _ (extract_ok (TrimSpace s) h1 h2 h3)).1
  have hC : (MalformedHex32 (TrimPrefix (TrimSpace s) "C") →
        ∃ e, DecodeStatusType s = ("", "", some e))
      ∧ (¬ MalformedHex32 (TrimPrefix (TrimSpace s) "C") → (DecodeStatusType s).2.2 = none) := by
    constructor
    · intro hm
      obtain ⟨e, he⟩ := extractType_err (TrimSpace s)
        (fun hh => ((not_malformed_iff _).mpr hh) hm)
      exact ⟨_, DecodeStatusType_of_err s _ e he⟩
    · intro hm
      obtain ⟨h1, h2, h3⟩ := (not_malformed_iff _).mp hm
      rw [DecodeStatusType_of_ok s _ (extractType_ok (TrimSpace s) h1 h2 h3)]
  have hVm : (DecodeStatusValue s isError).2.2.2 ≠ none
      → MalformedHex32 (TrimPrefix (TrimSpace s) "V") := by
    intro hne
    by_contra hm
    exact hne (hV.2 hm)
  have hCm : (DecodeStatusType s).2.2 ≠ none
      → MalformedHex32 (TrimPrefix (TrimSpace s) "C") := by
    intro hne
    by_contra hm
    exact hne (hC.2 hm)
  refine ⟨⟨hVm, ?_⟩, ?_, ⟨hCm, ?_⟩, ?_, ?_, ?_, ?_, ?_, ?_, ?_⟩
  · intro hm; obtain ⟨e, he⟩ := hV.1 hm; rw [he]; simp
  · intro hne; obtain ⟨e, he⟩ := hV.1 (hVm hne); rw [he]; exact ⟨rfl, rfl, rfl⟩
  · intro hm; obtain ⟨e, he⟩ := hC.1 hm; rw [he]; simp
  · intro hne; obtain ⟨e, he⟩ := hC.1 (hCm hne); rw [he]; exact ⟨rfl, rfl⟩
  · cases isError <;> decide
  · cases isError <;> decide
  · cases isError <;> decide
  · decide
  · decide
  · decide

/-- C5: for every input string that `extractStatusCodeValue` parses
successfully and for both values of `isError`, `DecodeStatusValue` returns a nil
error and three non-empty descriptions (class, subclass, operation); an
operation lookup that yields `""` is replaced by `"Unknown"`. -/
theorem DecodeStatusValue_descriptions_nonempty (s : String) (isError : Bool) (h : (extractStatusCodeValue s).2 = none) :
    (DecodeStatusValue s isError).2.2.2 = none
    ∧ (DecodeStatusValue s isError).1 ≠ ""
    ∧ (DecodeStatusValue s isError).2.1 ≠ ""
    ∧ (DecodeStatusValue s isError).2.2.1 ≠ ""
    ∧ (decodeOperation (extractStatusCodeValue s).1 isError = ""
        → (DecodeStatusValue s isError).2.2.1 = "Unknown") := by
  have hts := TrimSpace_of_extract_none s h
  have hex : extractStatusCodeValue (TrimSpace s) = ((extractStatusCodeValue s).1, none) := by
    rw [hts]; exact Prod.ext rfl h
  generalize (extractStatusCodeValue s).1 = v at hex
  obtain ⟨herr, hop⟩ := DecodeStatusValue_of_ok s isError v hex
  obtain ⟨hcls, hsub⟩ := DecodeStatusValue_class_subclass s isError v hex
  refine ⟨herr, ?_, ?_, ?_, ?_⟩
  · rw [hcls]; exact mapIndexOk_ne_empty classCodeDesc (by decide) _
  · rw [hsub]
    generalize hm : (match v.Class with
      | 0x00 => mapIndexOk subclassComputingCodeDesc v.Subclass
      | 0x01 => mapIndexOk subclassPeripheralCodeDesc v.Subclass
      | 0x02 => mapIndexOk subclassIOBusCodeDesc v.Subclass
      | 0x03 => mapIndexOk subclassSoftwareCodeDesc v.Subclass
      | _ => ("", (mapIndexOk classCodeDesc v.Class).2)) = r
    split at hm
    · rw [← hm]; exact mapIndexOk_ne_empty subclassComputingCodeDesc (by decide) _
    · rw [← hm]; exact mapIndexOk_ne_empty subclassPeripheralCodeDesc (by decide) _
    · rw [← hm]; exact mapIndexOk_ne_empty subclassIOBusCodeDesc (by decide) _
    · rw [← hm]; exact mapIndexOk_ne_empty subclassSoftwareCodeDesc (by decide) _
    · rename_i h0 h1 h2 h3
      rw [← hm, classCodeDesc_miss v.Class h0 h1 h2 h3]
      decide
  · rw [hop]
    by_cases hd : decodeOperation v isError = ""
    · rw [if_pos hd]; decide
    · rw [if_neg hd]; exact hd
  · intro hd
    rw [hop, if_pos hd]

/-- Witness of C5 at `"V00000FFF"`, an input whose operation lookup misses. -/
theorem DecodeStatusValue_descriptions_nonempty_witness : (extractStatusCodeValue "V00000FFF").2 = none
    ∧ (DecodeStatusValue "V00000FFF" false).2.2.2 = none
    ∧ (DecodeStatusValue "V00000FFF" false).1 ≠ ""
    ∧ (DecodeStatusValue "V00000FFF" false).2.1 ≠ ""
    ∧ (DecodeStatusValue "V00000FFF" false).2.2.1 ≠ ""
    ∧ (decodeOperation (extractStatusCodeValue "V00000FFF").1 false = ""
        → (DecodeStatusValue "V00000FFF" false).2.2.1 = "Unknown") :=
  ⟨by decide, DecodeStatusValue_descriptions_nonempty "V00000FFF" false (by decide)⟩

/-! ## End-to-end scenarios -/

/-- Counterexample to C6 as stated: `DecodeStatusValue "V03020003" false` is not
`("Computing", "Memory", "Memory Controller Init", nil)`. -/
theorem DecodeStatusValue_scenario1_counterexample :
    DecodeStatusValue "V03020003" false
      ≠ ("Computing", "Memory", "Memory Controller Init", none) := by
  decide

/-- C6 (amended): `DecodeStatusValue "V03020003" false` returns class description
`"Software"` (class byte `0x03`), subclass description `"PEI Core"` (subclass
byte `0x02`), operation description `"Init End"` (entry `0x0003` of the common
Software progress table) and a nil error. -/
theorem DecodeStatusValue_scenario1 :
    DecodeStatusValue "V03020003" false = ("Software", "PEI Core", "Init End", none)
    ∧ extractStatusCodeValue "V03020003" = (⟨0x03, 0x02, 0x0003⟩, none)
    ∧ commonSWProgressCodeDesc.lookup 0x0003 = some "Init End" := by
  decide

/-- Counterexample to C7 as stated: for `DecodeStatusValue "V010E0005" true` it is
not the case that the class is `"Peripheral"`, the subclass `"Mouse"` and the
operation `"Unknown Mouse Error Code"` or `"Unknown"` with a nil error: the
subclass description is `"TPM"` and the operation description is
`"Interface Error"`. -/
theorem DecodeStatusValue_scenario2_counterexample :
    ¬ ((DecodeStatusValue "V010E0005" true).1 = "Peripheral"
        ∧ (DecodeStatusValue "V010E0005" true).2.1 = "Mouse"
        ∧ ((DecodeStatusValue "V010E0005" true).2.2.1 = "Unknown Mouse Error Code"
            ∨ (DecodeStatusValue "V010E0005" true).2.2.1 = "Unknown")
        ∧ (DecodeStatusValue "V010E0005" true).2.2.2 = none) := by
  decide

/-- C7 (amended): `DecodeStatusValue "V010E0005" true` returns class description
`"Peripheral"`, subclass description `"TPM"` (subclass byte `0x0E`) and, the
operation `0x0005` being below `0x1000`, the operation description
`"Interface Error"` found at key `0x0005` of the common Peripheral error table,
with a nil error. -/
theorem DecodeStatusValue_scenario2 :
    DecodeStatusValue "V010E0005" true = ("Peripheral", "TPM", "Interface Error", none)
    ∧ extractStatusCodeValue "V010E0005" = (⟨0x01, 0x0E, 0x0005⟩, none)
    ∧ commonPErrorCodeDesc.lookup 0x0005 = some "Interface Error" := by
  decide

/-! ## Operation tiers -/

/-- Counterexample to C8 as stated: `"VFF008000"` parses to class `0xFF`,
subclass `0x00`, operation `0x8000`, and in either mode its operation description
is `"Unknown"`, not the OEM literal. -/
theorem DecodeStatusValue_oem_counterexample :
    extractStatusCodeValue (TrimSpace "VFF008000") = (⟨0xFF, 0x00, 0x8000⟩, none)
    ∧ (DecodeStatusValue "VFF008000" true).2.2.1 = "Unknown"
    ∧ (DecodeStatusValue "VFF008000" true).2.2.1 ≠ "OEM Specific Error Code"
    ∧ (DecodeStatusValue "VFF008000" false).2.2.1 = "Unknown"
    ∧ (DecodeStatusValue "VFF008000" false).2.2.1 ≠ "OEM Specific Progress Code" := by
  decide

/-- C8 (amended): for every input that parses to a status value with class byte
in `{0,1,2,3}`, any subclass byte and an operation `≥ 0x8000`, the operation
description returned by `DecodeStatusValue` is the OEM literal:
`"OEM Specific Error Code"` when `isError` is true and
`"OEM Specific Progress Code"` otherwise, regardless of class (within
`{0,1,2,3}`) and subclass. -/
theorem DecodeStatusValue_oem (s : String) (isError : Bool) (v : EFIStatusCodeValue)
    (h : extractStatusCodeValue (TrimSpace s) = (v, none)) (hc : v.Class ≤ 3)
    (hop : 0x8000 ≤ v.Operation) :
    (DecodeStatusValue s isError).2.2.1
      = (if isError then "OEM Specific Error Code" else "OEM Specific Progress Code") := by
  rw [(DecodeStatusValue_of_ok s isError v h).2]
  obtain ⟨c, sc, op⟩ := v
  rw [decodeOperation_oem c sc op isError hc hop]
  cases isError <;> decide

/-- Witness of C8 (amended) at `"V03058000"`: class `0x03`, subclass `0x05`,
operation `0x8000`, error mode. -/
theorem DecodeStatusValue_oem_witness :
    extractStatusCodeValue (TrimSpace "V03058000") = (⟨0x03, 0x05, 0x8000⟩, none)
    ∧ (DecodeStatusValue "V03058000" true).2.2.1
        = (if true then "OEM Specific Error Code" else "OEM Specific Progress Code") :=
  ⟨by decide, DecodeStatusValue_oem "V03058000" true ⟨0x03, 0x05, 0x8000⟩ (by decide)
    (by decide) (by decide)⟩

/-- C9: for every input that parses to a status value with class in `{0,1,2,3}`,
any subclass byte and an operation `< 0x1000`, the operation description
returned by `DecodeStatusValue` is the entry at key `operation` of the common
table of that class and mode, or `"Unknown"` when the table has no such key; it
does not depend on the subclass (any other input with the same class and
operation gets the same description).  In particular operation `0x0FFF` yields
`"Unknown"` for every class, subclass and mode. -/
theorem DecodeStatusValue_common_tier (s : String) (isError : Bool) (v : EFIStatusCodeValue)
    (h : extractStatusCodeValue (TrimSpace s) = (v, none)) :
    (v.Class ≤ 3 → v.Operation < 0x1000 →
      (DecodeStatusValue s isError).2.2.1
        = ((commonTable v.Class isError).lookup v.Operation).getD "Unknown")
    ∧ (v.Class ≤ 3 → v.Operation < 0x1000 →
        ∀ (s' : String) (v' : EFIStatusCodeValue),
          extractStatusCodeValue (TrimSpace s') = (v', none) →
          v'.Class = v.Class → v'.Operation = v.Operation →
          (DecodeStatusValue s' isError).2.2.1 = (DecodeStatusValue s isError).2.2.1)
    ∧ (v.Operation = 0x0FFF → (DecodeStatusValue s isError).2.2.1 = "Unknown") := by
  refine ⟨DecodeStatusValue_common_aux s isError v h, ?_, ?_⟩
  · intro hc hop s' v' h' hc' hop'
    rw [DecodeStatusValue_common_aux s isError v h hc hop,
      DecodeStatusValue_common_aux s' isError v' h' (by omega) (by omega), hc', hop']
  · intro hop
    by_cases hc : v.Class ≤ 3
    · rw [DecodeStatusValue_common_aux s isError v h hc (by omega), hop,
        commonTable_lookup_0FFF]
      rfl
    · rw [(DecodeStatusValue_of_ok s isError v h).2]
      obtain ⟨c, sc, op⟩ := v
      rw [decodeOperation_unknown_class c sc op isError (by simp at hc; omega)]
      decide

/-- Witness of C9 at `"V00050001"` (class `0x00`, subclass `0x05`, operation
`0x0001`, progress mode). -/
theorem DecodeStatusValue_common_tier_witness :
    extractStatusCodeValue (TrimSpace "V00050001") = (⟨0x00, 0x05, 0x0001⟩, none)
    ∧ (DecodeStatusValue "V00050001" false).2.2.1 = "Initialization End" := by
  have h : extractStatusCodeValue (TrimSpace "V00050001") = (⟨0x00, 0x05, 0x0001⟩, none) := by
    decide
  refine ⟨h, ?_⟩
  rw [(DecodeStatusValue_common_tier "V00050001" false ⟨0x00, 0x05, 0x0001⟩ h).1
    (by decide) (by decide)]
  decide

/-- C10: for every class in `{0,1,2,3}`, every subclass byte and every
operation in `[0x8000, 0xFFFF]`, `decodeOperation` returns exactly
`"OEM Specific Error Code"` when `isError` is true and exactly
`"OEM Specific Progress Code"` when it is false; the result depends on neither
the subclass nor the particular operation value. -/
theorem decodeOperation_oem_tier (c sc op : Nat) (isError : Bool) (hc : c ≤ 3)
    (hsc : sc ≤ 0xFF) (hlo : 0x8000 ≤ op) (hhi : op ≤ 0xFFFF) :
    decodeOperation ⟨c, sc, op⟩ isError
      = (if isError then "OEM Specific Error Code" else "OEM Specific Progress Code") := by
  have _ := hsc
  have _ := hhi
  exact decodeOperation_oem c sc op isError hc hlo

/-- Witness of C10 at class `0x02`, subclass `0x08`, operation `0xFFFF`,
progress mode. -/
theorem decodeOperation_oem_tier_witness :
    decodeOperation ⟨0x02, 0x08, 0xFFFF⟩ false = "OEM Specific Progress Code" :=
  decodeOperation_oem_tier 0x02 0x08 0xFFFF false (by decide) (by decide) (by decide) (by decide)

/-! ## Lemmas: subclass tier, class and subclass descriptions -/

set_option maxHeartbeats 4000000 in
theorem decodeOperation_subclass_tier (c sc op : Nat) (isError : Bool) (hc : c ≤ 3)
    (hlo : 0x1000 ≤ op) (hhi : op < 0x8000) :
    decodeOperation ⟨c, sc, op⟩ isError
      = (match operationTable c sc isError with
          | some T => mapIndex T (andNot16 op 0x1000)
          | none => decodeOperation ⟨c, sc, 0x1000⟩ isError) := by
  have h1 : ¬ op < 0x1000 := by omega
  have h2 : ¬ 0x8000 ≤ op := by omega
  by_cases hsc : sc ≤ 0x14
  · interval_cases c <;> cases isError <;> interval_cases sc <;>
      simp [decodeOperation, operationTable, h1, h2]
  · obtain ⟨n, rfl⟩ : ∃ n, sc = n + 0x15 := ⟨sc - 0x15, by omega⟩
    interval_cases c <;> cases isError <;>
      simp [decodeOperation, operationTable, h1, h2]

theorem operationTable_nonEmpty (c sc : Nat) (isError : Bool) (T : GoMap)
    (hT : operationTable c sc isError = some T) : NonEmptyValues T := by
  have hc : c ≤ 3 := by
    by_contra hn
    obtain ⟨n, rfl⟩ : ∃ n, c = n + 4 := ⟨c - 4, by omega⟩
    cases isError <;> simp [operationTable] at hT
  have hsc : sc ≤ 0x14 := by
    by_contra hn
    obtain ⟨n, rfl⟩ : ∃ n, sc = n + 0x15 := ⟨sc - 0x15, by omega⟩
    interval_cases c <;> cases isError <;> simp [operationTable] at hT
  interval_cases c <;> cases isError <;> interval_cases sc <;>
    first
    | (simp [operationTable] at hT; done)
    | (simp only [operationTable, Option.some.injEq] at hT; subst hT; decide)

theorem andNot16_testBit (op : Nat) (hop : op < 2 ^ 16) (i : Nat) :
    (andNot16 op 0x1000).testBit i = (op.testBit i && decide (i ≠ 12)) := by
  unfold andNot16
  rw [Nat.testBit_and]
  by_cases hi : i < 16
  · have hk : (0xFFFF ^^^ 0x1000 : Nat).testBit i = decide (i ≠ 12) := by
      interval_cases i <;> rfl
    rw [hk]
  · have h1 : op.testBit i = false :=
      Nat.testBit_lt_two_pow (Nat.lt_of_lt_of_le hop (Nat.pow_le_pow_right (by decide) (by omega)))
    rw [h1]; rfl

theorem mapIndexOk_getD (m : GoMap) (k : Nat) :
    (if !(mapIndexOk m k).2 then "Unknown" else (mapIndexOk m k).1)
      = (m.lookup k).getD "Unknown" := by
  unfold mapIndexOk
  cases m.lookup k <;> rfl

theorem DecodeStatusValue_class_aux (s : String) (isError : Bool) (v : EFIStatusCodeValue)
    (h : extractStatusCodeValue (TrimSpace s) = (v, none)) :
    (DecodeStatusValue s isError).1 = (classCodeDesc.lookup v.Class).getD "Unknown" := by
  rw [(DecodeStatusValue_class_subclass s isError v h).1]
  exact mapIndexOk_getD _ _

theorem DecodeStatusValue_subclass_aux (s : String) (isError : Bool) (v : EFIStatusCodeValue)
    (h : extractStatusCodeValue (TrimSpace s) = (v, none)) :
    (DecodeStatusValue s isError).2.1
      = ((subclassTable v.Class).lookup v.Subclass).getD "Unknown" := by
  rw [(DecodeStatusValue_class_subclass s isError v h).2]
  obtain ⟨c, sc, op⟩ := v
  by_cases hc : c ≤ 3
  · interval_cases c <;> exact mapIndexOk_getD _ _
  · obtain ⟨n, rfl⟩ : ∃ n, c = n + 4 := ⟨c - 4, by omega⟩
    show (if !(mapIndexOk classCodeDesc (n + 4)).2 then "Unknown" else "") = "Unknown"
    rw [classCodeDesc_miss (n + 4) (by omega) (by omega) (by omega) (by omega)]
    rfl

theorem DecodeStatusValue_table_aux (s : String) (isError : Bool) (v : EFIStatusCodeValue)
    (h : extractStatusCodeValue (TrimSpace s) = (v, none)) (T : GoMap)
    (hT : operationTable v.Class v.Subclass isError = some T)
    (hlo : 0x1000 ≤ v.Operation) (hhi : v.Operation < 0x8000) :
    (DecodeStatusValue s isError).2.2.1
      = (T.lookup (andNot16 v.Operation 0x1000)).getD "Unknown" := by
  rw [(DecodeStatusValue_of_ok s isError v h).2]
  obtain ⟨c, sc, op⟩ := v
  have hc : c ≤ 3 := by
    by_contra hn
    obtain ⟨n, rfl⟩ : ∃ n, c = n + 4 := ⟨c - 4, by omega⟩
    cases isError <;> simp [operationTable] at hT
  simp only at hT hlo hhi
  rw [decodeOperation_subclass_tier c sc op isError hc hlo hhi, hT]
  exact mapIndex_or_unknown T (operationTable_nonEmpty c sc isError T hT) _

/-! ## Lemmas: status type parsing -/

theorem ParseUint_none_valid (r : String) (v : Nat) (h : ParseUint r 16 32 = (v, none)) :
    (r.data ≠ [] ∧ (∀ c ∈ r.data, isHexDigit c = true) ∧ hexValue r ≤ 0xFFFFFFFF)
      ∧ v = hexValue r := by
  have hvalid : r.data ≠ [] ∧ (∀ c ∈ r.data, isHexDigit c = true)
      ∧ hexValue r ≤ 0xFFFFFFFF := by
    by_contra hn
    obtain ⟨e, he⟩ := ParseUint_err r hn
    rw [h] at he
    exact absurd he (by simp)
  refine ⟨hvalid, ?_⟩
  have hok := ParseUint_ok r hvalid.1 hvalid.2.1 hvalid.2.2
  rw [h] at hok
  exact congrArg Prod.fst hok

theorem mapIndex_ne_unknown (m : GoMap) (hm : ∀ p ∈ m, p.2 ≠ "Unknown") (k : Nat) :
    mapIndex m k ≠ "Unknown" := by
  unfold mapIndex
  cases hl : m.lookup k with
  | none => decide
  | some d => exact hm _ (lookup_mem m k d hl)

theorem hexDigitUpper_eq_C : ∀ d : Nat, d < 16 → (hexDigitUpper d = 'C' ↔ d = 12) := by
  decide

theorem TrimPrefix_cons_ne (c p : Char) (t : List Char) (h : c ≠ p) :
    TrimPrefix ⟨c :: t⟩ ⟨[p]⟩ = ⟨c :: t⟩ := by
  unfold TrimPrefix HasPrefix
  have : ([p].isPrefixOf (c :: t)) = false := by
    simp [List.isPrefixOf, h.symm]
  simp only [this]
  rfl

theorem TrimPrefix_cons_eq (p : Char) (t : List Char) :
    TrimPrefix ⟨p :: t⟩ ⟨[p]⟩ = ⟨t⟩ := by
  unfold TrimPrefix HasPrefix
  simp [List.isPrefixOf]

theorem formatHex8_tail_value (v : Nat) :
    (∀ c ∈ (formatHex8 v).data.tail, isHexDigit c = true)
    ∧ hexValueFrom 0 (formatHex8 v).data.tail = v % 2 ^ 28 := by
  have h := fun i => hexDigitUpper_spec (v / 16 ^ i % 16) (Nat.mod_lt _ (by norm_num))
  constructor
  · intro c hc
    simp only [formatHex8, List.tail_cons, List.mem_cons, List.mem_singleton, List.not_mem_nil,
      or_false] at hc
    rcases hc with rfl | rfl | rfl | rfl | rfl | rfl | rfl
    · exact (h 6).1
    · exact (h 5).1
    · exact (h 4).1
    · exact (h 3).1
    · exact (h 2).1
    · exact (h 1).1
    · exact (h 0).1
  · simp only [formatHex8, List.tail_cons, hexValueFrom, List.foldl, (h 6).2, (h 5).2, (h 4).2,
      (h 3).2, (h 2).2, (h 1).2, (h 0).2]
    norm_num
    omega

/-! ## Lemmas: fallback literals -/

theorem subclassTable_key_le (c sc : Nat) (name : String)
    (h : (subclassTable c).lookup sc = some name) : c ≤ 3 ∧ sc ≤ 0x14 := by
  have hc : c ≤ 3 := by
    by_contra hn
    obtain ⟨n, rfl⟩ : ∃ n, c = n + 4 := ⟨c - 4, by omega⟩
    simp [subclassTable, List.lookup] at h
  refine ⟨hc, ?_⟩
  have hmem := lookup_mem _ _ _ h
  have hall : ∀ p ∈ subclassTable c, p.1 ≤ 0x14 := by
    interval_cases c <;> decide
  exact hall _ hmem

set_option maxHeartbeats 4000000 in
theorem fallback_cells (c sc : Nat) (isError : Bool) (name : String) (hsc : sc ≠ 0)
    (hname : (subclassTable c).lookup sc = some name)
    (hT : operationTable c sc isError = none) :
    (1 ≤ c → ¬ (c = 3 ∧ sc = 0x0D ∧ isError = false) →
      decodeOperation ⟨c, sc, 0x1000⟩ isError
        = "Unknown " ++ name ++ " " ++ modeWord isError ++ " Code")
    ∧ (c = 0 → isError = false →
        decodeOperation ⟨c, sc, 0x1000⟩ isError = name ++ " Progress Code") := by
  obtain ⟨hc, hb⟩ := subclassTable_key_le c sc name hname
  interval_cases c <;> interval_cases sc <;> cases isError <;>
    first
    | exact absurd rfl hsc
    | exact absurd hT (by decide)
    | (simp [subclassTable, subclassComputingCodeDesc, subclassPeripheralCodeDesc,
        subclassIOBusCodeDesc, subclassSoftwareCodeDesc, List.lookup] at hname
       done)
    | (simp [subclassTable, subclassComputingCodeDesc, subclassPeripheralCodeDesc,
        subclassIOBusCodeDesc, subclassSoftwareCodeDesc, List.lookup] at hname
       subst hname
       decide)

/-! ## Lemmas: white space and the value prefix -/

theorem dropWhile_append_singleton (p : Char → Bool) (x : Char) (hx : p x = false) :
    ∀ a : List Char, (a ++ [x]).dropWhile p = a.dropWhile p ++ [x] := by
  intro a
  induction a with
  | nil => simp [List.dropWhile, hx]
  | cons b t ih =>
    cases hb : p b with
    | true => simp [List.dropWhile, hb, ih]
    | false => simp [List.dropWhile, hb]

theorem dropWhile_head_false (p : Char → Bool) (l : List Char)
    (h : ∀ c, l.head? = some c → p c = false) : l.dropWhile p = l := by
  cases l with
  | nil => rfl
  | cons a t => simp [List.dropWhile, h a rfl]

theorem TrimSpace_cons_V (l : List Char) (hW : ∀ c, l.head? = some c → isSpace c = false) :
    TrimSpace ⟨'V' :: l⟩ = ⟨'V' :: (TrimSpace ⟨l⟩).data⟩ := by
  unfold TrimSpace
  have hV : isSpace 'V' = false := by decide
  have h1 : ('V' :: l).dropWhile isSpace = 'V' :: l := by simp [List.dropWhile, hV]
  have h2 : l.dropWhile isSpace = l := dropWhile_head_false isSpace l hW
  simp only [h1, h2, List.reverse_cons, dropWhile_append_singleton isSpace 'V' hV,
    List.reverse_append, List.reverse_singleton, List.singleton_append, List.reverse_nil,
    List.nil_append]

theorem TrimSpace_head (l : List Char) (hW : ∀ c, l.head? = some c → isSpace c = false) :
    ∀ c, (TrimSpace ⟨l⟩).data.head? = some c → l.head? = some c := by
  intro c hc
  unfold TrimSpace at hc
  rw [dropWhile_head_false isSpace l hW] at hc
  have hp : (l.reverse.dropWhile isSpace).reverse <+: l := by
    have := List.rdropWhile_prefix isSpace l
    exact this
  obtain ⟨t, ht⟩ := hp
  simp only at hc
  cases hr : (l.reverse.dropWhile isSpace).reverse with
  | nil => rw [hr] at hc; simp at hc
  | cons a r =>
    rw [hr] at hc ht
    simp at hc
    subst hc
    rw [← ht]; rfl

/-! ## Lemmas: the UUID pattern -/

theorem hexClass_accepts (c : Char) : hexClass.accepts c = isHexDigit c := by
  unfold hexClass RegexAtom.accepts isHexDigit
  simp only [List.any_cons, List.any_nil, Bool.or_false]
  have ha : ('a' : Char).toNat = 0x61 := rfl
  have hf : ('f' : Char).toNat = 0x66 := rfl
  have hA : ('A' : Char).toNat = 0x41 := rfl
  have hF : ('F' : Char).toNat = 0x46 := rfl
  have h0 : ('0' : Char).toNat = 0x30 := rfl
  have h9 : ('9' : Char).toNat = 0x39 := rfl
  rw [ha, hf, hA, hF, h0, h9]
  generalize c.toNat = n
  rw [Bool.eq_iff_iff]
  simp only [Bool.or_eq_true, Bool.and_eq_true, decide_eq_true_eq]
  omega

theorem literal_accepts (l c : Char) : (RegexAtom.literal l).accepts c = (c == l) := rfl

theorem matchPieces_length (ps : List RegexPiece) :
    ∀ cs, matchPieces ps cs = true → cs.length = (ps.map RegexPiece.count).sum := by
  induction ps with
  | nil =>
    intro cs h
    cases cs with
    | nil => rfl
    | cons a t => simp [matchPieces] at h
  | cons p ps ih =>
    intro cs h
    simp only [matchPieces, Bool.and_eq_true, decide_eq_true_eq] at h
    have := ih _ h.2
    rw [List.length_drop] at this
    simp only [List.map_cons, List.sum_cons]
    omega

theorem matchPieces_uuid_36 (c0 c1 c2 c3 c4 c5 c6 c7 c8 c9 c10 c11 c12 c13 c14 c15 c16 c17 c18 c19 c20 c21 c22 c23 c24 c25 c26 c27 c28 c29 c30 c31 c32 c33 c34 c35 : Char) :
    matchPieces uuidPattern [c0, c1, c2, c3, c4, c5, c6, c7, c8, c9, c10, c11, c12, c13, c14, c15, c16, c17, c18, c19, c20, c21, c22, c23, c24, c25, c26, c27, c28, c29, c30, c31, c32, c33, c34, c35] = true ↔ UuidShape ⟨[c0, c1, c2, c3, c4, c5, c6, c7, c8, c9, c10, c11, c12, c13, c14, c15, c16, c17, c18, c19, c20, c21, c22, c23, c24, c25, c26, c27, c28, c29, c30, c31, c32, c33, c34, c35]⟩ := by
  unfold UuidShape
  constructor
  · intro h
    simp [uuidPattern, matchPieces, hexClass_accepts, literal_accepts] at h
    refine ⟨rfl, ?_⟩
    intro i hi
    interval_cases i <;> simp [h]
  · rintro ⟨_, h⟩
    have h0 := h 0 (by decide)
    have h1 := h 1 (by decide)
    have h2 := h 2 (by decide)
    have h3 := h 3 (by decide)
    have h4 := h 4 (by decide)
    have h5 := h 5 (by decide)
    have h6 := h 6 (by decide)
    have h7 := h 7 (by decide)
    have h8 := h 8 (by decide)
    have h9 := h 9 (by decide)
    have h10 := h 10 (by decide)
    have h11 := h 11 (by decide)
    have h12 := h 12 (by decide)
    have h13 := h 13 (by decide)
    have h14 := h 14 (by decide)
    have h15 := h 15 (by decide)
    have h16 := h 16 (by decide)
    have h17 := h 17 (by decide)
    have h18 := h 18 (by decide)
    have h19 := h 19 (by decide)
    have h20 := h 20 (by decide)
    have h21 := h 21 (by decide)
    have h22 := h 22 (by decide)
    have h23 := h 23 (by decide)
    have h24 := h 24 (by decide)
    have h25 := h 25 (by decide)
    have h26 := h 26 (by decide)
    have h27 := h 27 (by decide)
    have h28 := h 28 (by decide)
    have h29 := h 29 (by decide)
    have h30 := h 30 (by decide)
    have h31 := h 31 (by decide)
    have h32 := h 32 (by decide)
    have h33 := h 33 (by decide)
    have h34 := h 34 (by decide)
    have h35 := h 35 (by decide)
    simp at h0 h1 h2 h3 h4 h5 h6 h7 h8 h9 h10 h11 h12 h13 h14 h15 h16 h17 h18 h19 h20 h21 h22 h23 h24 h25 h26 h27 h28 h29 h30 h31 h32 h33 h34 h35
    simp [uuidPattern, matchPieces, hexClass_accepts, literal_accepts, *]

theorem list_length_36 (cs : List Char) (h : cs.length = 36) :
    ∃ c0 c1 c2 c3 c4 c5 c6 c7 c8 c9 c10 c11 c12 c13 c14 c15 c16 c17 c18 c19 c20 c21 c22 c23 c24 c25 c26 c27 c28 c29 c30 c31 c32 c33 c34 c35, cs = [c0, c1, c2, c3, c4, c5, c6, c7, c8, c9, c10, c11, c12, c13, c14, c15, c16, c17, c18, c19, c20, c21, c22, c23, c24, c25, c26, c27, c28, c29, c30, c31, c32, c33, c34, c35] := by
  rcases cs with _ | ⟨c0, _ | ⟨c1, _ | ⟨c2, _ | ⟨c3, _ | ⟨c4, _ | ⟨c5, _ | ⟨c6, _ | ⟨c7, _ | ⟨c8, _ | ⟨c9, _ | ⟨c10, _ | ⟨c11, _ | ⟨c12, _ | ⟨c13, _ | ⟨c14, _ | ⟨c15, _ | ⟨c16, _ | ⟨c17, _ | ⟨c18, _ | ⟨c19, _ | ⟨c20, _ | ⟨c21, _ | ⟨c22, _ | ⟨c23, _ | ⟨c24, _ | ⟨c25, _ | ⟨c26, _ | ⟨c27, _ | ⟨c28, _ | ⟨c29, _ | ⟨c30, _ | ⟨c31, _ | ⟨c32, _ | ⟨c33, _ | ⟨c34, _ | ⟨c35, _ | ⟨x, xs⟩⟩⟩⟩⟩⟩⟩⟩⟩⟩⟩⟩⟩⟩⟩⟩⟩⟩⟩⟩⟩⟩⟩⟩⟩⟩⟩⟩⟩⟩⟩⟩⟩⟩⟩⟩⟩
  all_goals first
    | (simp at h; done)
    | (simp at h; omega)
    | exact ⟨_, _, _, _, _, _, _, _, _, _, _, _, _, _, _, _, _, _, _, _, _, _, _, _, _, _, _, _, _, _, _, _, _, _, _, _, rfl⟩

/-! # Main results: subclass tier, descriptions, UUID, prefixes -/

/-- C11: for every (class, subclass, mode) cell for which `decodeOperation`
dispatches to an operation table `T` (for instance class `0x00`, subclass
`0x01`, progress mode: `cUHPProgressCodeDesc`) and every operation in
`[0x1000, 0x8000)`, the operation description returned by `DecodeStatusValue`
is `T[operation &^ 0x1000]` (the operation with bit 12 cleared, all other bits
kept) when `T` has that key and `"Unknown"` otherwise.  In particular operation
`0x1000` resolves to `T[0x0000]` and operation `0x7FFF` is looked up at index
`0x6FFF`. -/
theorem DecodeStatusValue_subclass_table (s : String) (isError : Bool)
    (v : EFIStatusCodeValue) (T : GoMap)
    (h : extractStatusCodeValue (TrimSpace s) = (v, none))
    (hT : operationTable v.Class v.Subclass isError = some T)
    (hlo : 0x1000 ≤ v.Operation) (hhi : v.Operation < 0x8000) :
    (DecodeStatusValue s isError).2.2.1
        = (T.lookup (andNot16 v.Operation 0x1000)).getD "Unknown"
    ∧ (∀ i, (andNot16 v.Operation 0x1000).testBit i
        = (v.Operation.testBit i && decide (i ≠ 12)))
    ∧ (v.Operation = 0x1000 →
        (DecodeStatusValue s isError).2.2.1 = (T.lookup 0x0000).getD "Unknown")
    ∧ (v.Operation = 0x7FFF →
        (DecodeStatusValue s isError).2.2.1 = (T.lookup 0x6FFF).getD "Unknown")
    ∧ operationTable 0x00 0x01 false = some cUHPProgressCodeDesc := by
  have hmain := DecodeStatusValue_table_aux s isError v h T hT hlo hhi
  refine ⟨hmain, ?_, ?_, ?_, rfl⟩
  · intro i
    exact andNot16_testBit v.Operation (by omega) i
  · intro hop
    rw [hmain, hop]; rfl
  · intro hop
    rw [hmain, hop]; rfl

/-- Witness of C11 at `"V00011003"`: class `0x00`, subclass `0x01`, operation
`0x1003`, progress mode, table `cUHPProgressCodeDesc`, entry `0x0003`. -/
theorem DecodeStatusValue_subclass_table_witness :
    extractStatusCodeValue (TrimSpace "V00011003") = (⟨0x00, 0x01, 0x1003⟩, none)
    ∧ (DecodeStatusValue "V00011003" false).2.2.1 = "Memory Controller Init" := by
  have h : extractStatusCodeValue (TrimSpace "V00011003") = (⟨0x00, 0x01, 0x1003⟩, none) := by
    decide
  refine ⟨h, ?_⟩
  rw [(DecodeStatusValue_subclass_table "V00011003" false ⟨0x00, 0x01, 0x1003⟩
    cUHPProgressCodeDesc h rfl (by decide) (by decide)).1]
  decide

/-- C12: for every successfully parsed status value whose class byte is outside
`{0,1,2,3}`, whatever the subclass byte, the operation and the mode,
`DecodeStatusValue` returns class description `"Unknown"` and subclass
description `"Unknown"`. -/
theorem DecodeStatusValue_unknown_class (s : String) (isError : Bool) (v : EFIStatusCodeValue)
    (h : extractStatusCodeValue (TrimSpace s) = (v, none)) (hc : 4 ≤ v.Class) :
    (DecodeStatusValue s isError).1 = "Unknown"
    ∧ (DecodeStatusValue s isError).2.1 = "Unknown" := by
  rw [DecodeStatusValue_class_aux s isError v h, DecodeStatusValue_subclass_aux s isError v h]
  obtain ⟨n, hn⟩ : ∃ n, v.Class = n + 4 := ⟨v.Class - 4, by omega⟩
  rw [hn]
  have hcls := classCodeDesc_miss (n + 4) (by omega) (by omega) (by omega) (by omega)
  unfold mapIndexOk at hcls
  constructor
  · cases hl : classCodeDesc.lookup (n + 4) with
    | none => rfl
    | some d => rw [hl] at hcls; simp at hcls
  · rfl

/-- Witness of C12 at `"VFF050003"` (class `0xFF`), error mode. -/
theorem DecodeStatusValue_unknown_class_witness :
    extractStatusCodeValue (TrimSpace "VFF050003") = (⟨0xFF, 0x05, 0x0003⟩, none)
    ∧ (DecodeStatusValue "VFF050003" true).1 = "Unknown"
    ∧ (DecodeStatusValue "VFF050003" true).2.1 = "Unknown" :=
  ⟨by decide, DecodeStatusValue_unknown_class "VFF050003" true ⟨0xFF, 0x05, 0x0003⟩
    (by decide) (by decide)⟩

/-- C13: for every successfully parsed status value, the class description
returned by `DecodeStatusValue` is `"Computing"`, `"Peripheral"`, `"I/O Bus"`
or `"Software"` when the class byte is 0, 1, 2 or 3 respectively; it is the
entry of `classCodeDesc` at the class byte (or `"Unknown"`), so it depends only
on the class byte: any input, in any mode, with the same class byte gets the
same class description. -/
theorem DecodeStatusValue_class (s : String) (isError : Bool) (v : EFIStatusCodeValue)
    (h : extractStatusCodeValue (TrimSpace s) = (v, none)) :
    (DecodeStatusValue s isError).1 = (classCodeDesc.lookup v.Class).getD "Unknown"
    ∧ (v.Class = 0 → (DecodeStatusValue s isError).1 = "Computing")
    ∧ (v.Class = 1 → (DecodeStatusValue s isError).1 = "Peripheral")
    ∧ (v.Class = 2 → (DecodeStatusValue s isError).1 = "I/O Bus")
    ∧ (v.Class = 3 → (DecodeStatusValue s isError).1 = "Software")
    ∧ (∀ (s' : String) (isError' : Bool) (v' : EFIStatusCodeValue),
        extractStatusCodeValue (TrimSpace s') = (v', none) → v'.Class = v.Class →
        (DecodeStatusValue s' isError').1 = (DecodeStatusValue s isError).1) := by
  have hmain := DecodeStatusValue_class_aux s isError v h
  refine ⟨hmain, ?_, ?_, ?_, ?_, ?_⟩
  · intro hc; rw [hmain, hc]; rfl
  · intro hc; rw [hmain, hc]; rfl
  · intro hc; rw [hmain, hc]; rfl
  · intro hc; rw [hmain, hc]; rfl
  · intro s' isError' v' h' hc
    rw [hmain, DecodeStatusValue_class_aux s' isError' v' h', hc]

/-- Witness of C13 at `"V02010000"` (class `0x02`), progress mode. -/
theorem DecodeStatusValue_class_witness :
    extractStatusCodeValue (TrimSpace "V02010000") = (⟨0x02, 0x01, 0x0000⟩, none)
    ∧ (DecodeStatusValue "V02010000" false).1 = "I/O Bus" := by
  have h : extractStatusCodeValue (TrimSpace "V02010000") = (⟨0x02, 0x01, 0x0000⟩, none) := by
    decide
  exact ⟨h, (DecodeStatusValue_class "V02010000" false ⟨0x02, 0x01, 0x0000⟩ h).2.2.2.1 rfl⟩

/-- C14: for every successfully parsed status value with class byte `c` in
`{0,1,2,3}`, the subclass description returned by `DecodeStatusValue` is the
entry at key `subclass` of the table selected by `c`
(`subclassComputingCodeDesc`, `subclassPeripheralCodeDesc`,
`subclassIOBusCodeDesc`, `subclassSoftwareCodeDesc` for `c = 0, 1, 2, 3`) when
that key exists and `"Unknown"` otherwise; it does not depend on the operation
or on `isError`: any input, in any mode, with the same class and subclass
bytes gets the same subclass description. -/
theorem DecodeStatusValue_subclass (s : String) (isError : Bool) (v : EFIStatusCodeValue)
    (h : extractStatusCodeValue (TrimSpace s) = (v, none)) (hc : v.Class ≤ 3) :
    (DecodeStatusValue s isError).2.1
        = ((subclassTable v.Class).lookup v.Subclass).getD "Unknown"
    ∧ (∀ (s' : String) (isError' : Bool) (v' : EFIStatusCodeValue),
        extractStatusCodeValue (TrimSpace s') = (v', none) →
        v'.Class = v.Class → v'.Subclass = v.Subclass →
        (DecodeStatusValue s' isError').2.1 = (DecodeStatusValue s isError).2.1)
    ∧ subclassTable 0 = subclassComputingCodeDesc
    ∧ subclassTable 1 = subclassPeripheralCodeDesc
    ∧ subclassTable 2 = subclassIOBusCodeDesc
    ∧ subclassTable 3 = subclassSoftwareCodeDesc := by
  have _ := hc
  have hmain := DecodeStatusValue_subclass_aux s isError v h
  refine ⟨hmain, ?_, rfl, rfl, rfl, rfl⟩
  intro s' isError' v' h' hc' hsc'
  rw [hmain, DecodeStatusValue_subclass_aux s' isError' v' h', hc', hsc']

/-- Witness of C14 at `"V01051000"` (class `0x01`, subclass `0x05`), error mode. -/
theorem DecodeStatusValue_subclass_witness :
    extractStatusCodeValue (TrimSpace "V01051000") = (⟨0x01, 0x05, 0x1000⟩, none)
    ∧ (DecodeStatusValue "V01051000" true).2.1 = "Serial Port" := by
  have h : extractStatusCodeValue (TrimSpace "V01051000") = (⟨0x01, 0x05, 0x1000⟩, none) := by
    decide
  refine ⟨h, ?_⟩
  rw [(DecodeStatusValue_subclass "V01051000" true ⟨0x01, 0x05, 0x1000⟩ h (by decide)).1]
  decide
/-- C15: for every type string that parses to a 32-bit value `v`,
`DecodeStatusType` returns a nil error, the type description
`statusTypeDesc[v & 0xFF]` and the severity description
`errorSeverityDesc[(v >> 24) & 0xFF]`, where a missing key yields the empty
string `""` (never `"Unknown"`).  `DecodeStatusType "C40000002"` returns
`("Error Code", "Minor Error", nil)`. -/
theorem DecodeStatusType_descriptions (s : String) (v : Nat)
    (h : ParseUint (TrimPrefix (TrimSpace s) "C") 16 32 = (v, none)) :
    v < 2 ^ 32
    ∧ DecodeStatusType s
        = (mapIndex statusTypeDesc (v &&& 0xFF),
           mapIndex errorSeverityDesc ((v >>> 24) &&& 0xFF), none)
    ∧ (statusTypeDesc.lookup (v &&& 0xFF) = none → (DecodeStatusType s).1 = "")
    ∧ (errorSeverityDesc.lookup ((v >>> 24) &&& 0xFF) = none → (DecodeStatusType s).2.1 = "")
    ∧ (DecodeStatusType s).1 ≠ "Unknown"
    ∧ (DecodeStatusType s).2.1 ≠ "Unknown"
    ∧ DecodeStatusType "C40000002" = ("Error Code", "Minor Error", none) := by
  obtain ⟨⟨h1, h2, h3⟩, hv⟩ := ParseUint_none_valid _ v h
  have hlt : v < 2 ^ 32 := by rw [hv]; omega
  have hx := extractType_ok (TrimSpace s) h1 h2 h3
  rw [← hv] at hx
  have hd := DecodeStatusType_of_ok s _ hx
  have hty : (decodeStatusType v).Typ = v &&& 0xFF := by
    show (v &&& 0xFF) % 2 ^ 8 = v &&& 0xFF
    exact and_mask_mod v 8
  have hsev : (decodeStatusType v).Severity = (v >>> 24) &&& 0xFF := by
    show ((v &&& 0xFF000000) >>> 24) % 2 ^ 8 = (v >>> 24) &&& 0xFF
    rw [shiftRight_and]
    exact and_mask_mod (v >>> 24) 8
  rw [hty, hsev] at hd
  refine ⟨hlt, hd, ?_, ?_, ?_, ?_, by decide⟩
  · intro hl; rw [hd]; show mapIndex statusTypeDesc (v &&& 0xFF) = ""
    unfold mapIndex; rw [hl]; rfl
  · intro hl; rw [hd]; show mapIndex errorSeverityDesc ((v >>> 24) &&& 0xFF) = ""
    unfold mapIndex; rw [hl]; rfl
  · rw [hd]; exact mapIndex_ne_unknown statusTypeDesc (by decide) _
  · rw [hd]; exact mapIndex_ne_unknown errorSeverityDesc (by decide) _

/-- Witness of C15 at `"C00000005"`: type byte `0x05` and severity byte `0x00`
have no entry, both descriptions are empty. -/
theorem DecodeStatusType_descriptions_witness :
    ParseUint (TrimPrefix (TrimSpace "C00000005") "C") 16 32 = (0x00000005, none)
    ∧ DecodeStatusType "C00000005" = ("", "", none) := by
  have h : ParseUint (TrimPrefix (TrimSpace "C00000005") "C") 16 32 = (0x00000005, none) := by
    decide
  refine ⟨h, ?_⟩
  rw [(DecodeStatusType_descriptions "C00000005" 0x00000005 h).2.1]
  decide

/-- C16: `IsValidUUID s` is true if and only if `s` has exactly 36
characters, the characters at the (0-based) positions 8, 13, 18 and 23 are `-`,
and every other character is a hexadecimal digit (`0-9`, `a-f` or `A-F`).  It
accepts `"6D33944A-EC75-4855-A54D-809C75241F6C"`, rejects `"not-a-uuid"`, and
rejects any accepted string with a character prepended or appended. -/
theorem IsValidUUID_iff_shape (s : String) :
    (IsValidUUID s = true ↔ UuidShape s)
    ∧ IsValidUUID "6D33944A-EC75-4855-A54D-809C75241F6C" = true
    ∧ IsValidUUID "not-a-uuid" = false
    ∧ (IsValidUUID s = true →
        ∀ c : Char, IsValidUUID ⟨c :: s.data⟩ = false ∧ IsValidUUID ⟨s.data ++ [c]⟩ = false) := by
  have hlen : ∀ t : String, IsValidUUID t = true → t.data.length = 36 := by
    intro t ht
    exact matchPieces_length uuidPattern t.data ht
  refine ⟨⟨?_, ?_⟩, by decide, by decide, ?_⟩
  · intro h
    obtain ⟨l⟩ := s
    obtain ⟨c0, c1, c2, c3, c4, c5, c6, c7, c8, c9, c10, c11, c12, c13, c14, c15, c16, c17, c18,
      c19, c20, c21, c22, c23, c24, c25, c26, c27, c28, c29, c30, c31, c32, c33, c34, c35, rfl⟩ :=
      list_length_36 l (hlen _ h)
    exact (matchPieces_uuid_36 _ _ _ _ _ _ _ _ _ _ _ _ _ _ _ _ _ _ _ _ _ _ _ _ _ _ _ _ _ _ _ _
      _ _ _ _).mp h
  · intro h
    obtain ⟨l⟩ := s
    obtain ⟨c0, c1, c2, c3, c4, c5, c6, c7, c8, c9, c10, c11, c12, c13, c14, c15, c16, c17, c18,
      c19, c20, c21, c22, c23, c24, c25, c26, c27, c28, c29, c30, c31, c32, c33, c34, c35, rfl⟩ :=
      list_length_36 l h.1
    exact (matchPieces_uuid_36 _ _ _ _ _ _ _ _ _ _ _ _ _ _ _ _ _ _ _ _ _ _ _ _ _ _ _ _ _ _ _ _
      _ _ _ _).mpr h
  · intro h c
    have h36 := hlen s h
    constructor
    · cases hb : IsValidUUID ⟨c :: s.data⟩ with
      | false => rfl
      | true =>
        have := hlen _ hb
        simp only [List.length_cons] at this
        omega
    · cases hb : IsValidUUID ⟨s.data ++ [c]⟩ with
      | false => rfl
      | true =>
        have := hlen _ hb
        simp only [List.length_append, List.length_singleton] at this
        omega

/-- C17 (amended): for every input that parses to a status value whose
subclass is not `0x00` and has an entry `name` in the subclass table of its
class, in a mode for which `decodeOperation` has no operation table for that
(class, subclass) pair, and whose operation is in `[0x1000, 0x8000)`: the
subclass description is `name`; for the classes `0x01`, `0x02` and `0x03`,
Software subclass `0x0D` in progress mode apart, the operation description
is `"Unknown <name> <Mode> Code"` with `<Mode>` `Error` or `Progress`; for class
`0x00` in progress mode it is `"<name> Progress Code"`, without `Unknown`. -/
theorem DecodeStatusValue_fallback_literal (s : String) (isError : Bool)
    (v : EFIStatusCodeValue) (name : String)
    (h : extractStatusCodeValue (TrimSpace s) = (v, none))
    (hsc : v.Subclass ≠ 0x00)
    (hname : (subclassTable v.Class).lookup v.Subclass = some name)
    (hT : operationTable v.Class v.Subclass isError = none)
    (hlo : 0x1000 ≤ v.Operation) (hhi : v.Operation < 0x8000) :
    (DecodeStatusValue s isError).2.1 = name
    ∧ (1 ≤ v.Class → ¬ (v.Class = 3 ∧ v.Subclass = 0x0D ∧ isError = false) →
        (DecodeStatusValue s isError).2.2.1
          = "Unknown " ++ name ++ " " ++ modeWord isError ++ " Code")
    ∧ (v.Class = 0 → isError = false →
        (DecodeStatusValue s isError).2.2.1 = name ++ " Progress Code") := by
  have hsub := DecodeStatusValue_subclass_aux s isError v h
  rw [hname] at hsub
  have hop := (DecodeStatusValue_of_ok s isError v h).2
  obtain ⟨c, sc, op⟩ := v
  simp only at hsc hname hT hlo hhi hop ⊢
  obtain ⟨hc, _⟩ := subclassTable_key_le c sc name hname
  rw [decodeOperation_subclass_tier c sc op isError hc hlo hhi, hT] at hop
  simp only at hop
  obtain ⟨f1, f2⟩ := fallback_cells c sc isError name hsc hname hT
  have hne : ∀ t : String, decodeOperation ⟨c, sc, 0x1000⟩ isError = t → t ≠ "" →
      (DecodeStatusValue s isError).2.2.1 = t := by
    intro t ht hte
    rw [hop, ht, if_neg hte]
  refine ⟨hsub, ?_, ?_⟩
  · intro h1 hx
    apply hne _ (f1 h1 hx)
    intro he
    have hl := congrArg String.length he
    simp only [String.length_append] at hl
    have h5 : (" Code" : String).length = 5 := by decide
    have h0 : ("" : String).length = 0 := by decide
    omega
  · intro h0 he
    apply hne _ (f2 h0 he)
    intro he'
    have hl := congrArg String.length he'
    simp only [String.length_append] at hl
    have h14 : (" Progress Code" : String).length = 14 := by decide
    have h0 : ("" : String).length = 0 := by decide
    omega

/-- Witness of C17 (amended) at `"V01031234"`: class `0x01`, subclass `0x03`
(`"Local Console"`), operation `0x1234`, error mode. -/
theorem DecodeStatusValue_fallback_literal_witness :
    extractStatusCodeValue (TrimSpace "V01031234") = (⟨0x01, 0x03, 0x1234⟩, none)
    ∧ (DecodeStatusValue "V01031234" true).2.1 = "Local Console"
    ∧ (DecodeStatusValue "V01031234" true).2.2.1 = "Unknown Local Console Error Code" := by
  have h : extractStatusCodeValue (TrimSpace "V01031234") = (⟨0x01, 0x03, 0x1234⟩, none) := by
    decide
  have hw := DecodeStatusValue_fallback_literal "V01031234" true ⟨0x01, 0x03, 0x1234⟩
    "Local Console" h (by decide) (by decide) (by decide) (by decide) (by decide)
  exact ⟨h, hw.1, hw.2.1 (by decide) (by decide)⟩

/-- Counterexample to C17 as stated: `"V00021000"` in progress mode has class
`0x00`, subclass `0x02` (`"Firmware Processor"`, a cell without an operation
table) and operation `0x1000`; its operation description is
`"Firmware Processor Progress Code"`, not
`"Unknown Firmware Processor Progress Code"`. -/
theorem DecodeStatusValue_fallback_literal_counterexample :
    extractStatusCodeValue (TrimSpace "V00021000") = (⟨0x00, 0x02, 0x1000⟩, none)
    ∧ (subclassTable 0x00).lookup 0x02 = some "Firmware Processor"
    ∧ operationTable 0x00 0x02 false = none
    ∧ (DecodeStatusValue "V00021000" false).2.1 = "Firmware Processor"
    ∧ (DecodeStatusValue "V00021000" false).2.2.1 = "Firmware Processor Progress Code"
    ∧ (DecodeStatusValue "V00021000" false).2.2.1
        ≠ "Unknown " ++ (DecodeStatusValue "V00021000" false).2.1 ++ " Progress Code" := by
  decide

/-- C18 (amended): for every 32-bit unsigned `v`, `extractStatusCodeType`
applied to `"C"` followed by `v` written as exactly 8 upper-case hexadecimal
digits returns no error and `decodeStatusType v`; applied to the 8 digits
without the prefix it returns the same provided the most significant digit of
`v` is not `C`; when that digit is `C` it is taken for the prefix and the
result is `decodeStatusType` of the remaining 28 bits. -/
theorem extractStatusCodeType_formatHex8 (v : Nat) (hv : v < 2 ^ 32) :
    extractStatusCodeType ("C" ++ formatHex8 v) = (decodeStatusType v, none)
    ∧ (v / 2 ^ 28 ≠ 0xC → extractStatusCodeType (formatHex8 v) = (decodeStatusType v, none))
    ∧ (v / 2 ^ 28 = 0xC →
        extractStatusCodeType (formatHex8 v) = (decodeStatusType (v % 2 ^ 28), none)) := by
  have hf := formatHex8_value v hv
  have hne : (formatHex8 v).data ≠ [] := by simp [formatHex8]
  have hd : v / 16 ^ 7 % 16 = v / 2 ^ 28 := by
    norm_num
    omega
  have hshape : formatHex8 v = ⟨hexDigitUpper (v / 16 ^ 7 % 16) :: (formatHex8 v).data.tail⟩ := rfl
  refine ⟨?_, ?_, ?_⟩
  · have ht : TrimPrefix ("C" ++ formatHex8 v) "C" = formatHex8 v := TrimPrefix_append _ _
    have := extractType_ok ("C" ++ formatHex8 v) (by rw [ht]; exact hne)
      (by rw [ht]; exact hf.1) (by rw [ht, hf.2]; omega)
    rw [this, ht, hf.2]
  · intro hC
    have hc0 : hexDigitUpper (v / 16 ^ 7 % 16) ≠ 'C' := by
      intro he
      have := (hexDigitUpper_eq_C _ (Nat.mod_lt _ (by norm_num))).mp he
      omega
    have ht : TrimPrefix (formatHex8 v) "C" = formatHex8 v := by
      rw [hshape]
      exact TrimPrefix_cons_ne _ 'C' _ hc0
    have := extractType_ok (formatHex8 v) (by rw [ht]; exact hne)
      (by rw [ht]; exact hf.1) (by rw [ht, hf.2]; omega)
    rw [this, ht, hf.2]
  · intro hC
    have hc0 : hexDigitUpper (v / 16 ^ 7 % 16) = 'C' :=
      (hexDigitUpper_eq_C _ (Nat.mod_lt _ (by norm_num))).mpr (by omega)
    have ht : TrimPrefix (formatHex8 v) "C" = ⟨(formatHex8 v).data.tail⟩ := by
      rw [hshape, hc0]
      exact TrimPrefix_cons_eq 'C' _
    have htl := formatHex8_tail_value v
    have hval : hexValue ⟨(formatHex8 v).data.tail⟩ = v % 2 ^ 28 := htl.2
    have := extractType_ok (formatHex8 v) (by rw [ht]; simp [formatHex8])
      (by rw [ht]; exact htl.1) (by rw [ht, hval]; omega)
    rw [this, ht, hval]

/-- Witness of C18 (amended) at `v = 0x40000002`. -/
theorem extractStatusCodeType_formatHex8_witness :
    (0x40000002 : Nat) < 2 ^ 32
    ∧ extractStatusCodeType ("C" ++ formatHex8 0x40000002) = (decodeStatusType 0x40000002, none)
    ∧ extractStatusCodeType (formatHex8 0x40000002) = (decodeStatusType 0x40000002, none) :=
  ⟨by decide, (extractStatusCodeType_formatHex8 0x40000002 (by decide)).1,
    (extractStatusCodeType_formatHex8 0x40000002 (by decide)).2.1 (by decide)⟩

/-- Counterexample to C18 as stated: `v = 0xC0000002` is written `"C0000002"`;
without a prefix its leading digit `C` is stripped and the severity byte is
lost (`0x00` where `decodeStatusType v` has `0xC0`). -/
theorem extractStatusCodeType_formatHex8_counterexample :
    (0xC0000002 : Nat) < 2 ^ 32
    ∧ formatHex8 0xC0000002 = "C0000002"
    ∧ extractStatusCodeType (formatHex8 0xC0000002) = (⟨0x02, 0x00⟩, none)
    ∧ decodeStatusType 0xC0000002 = ⟨0x02, 0xC0⟩
    ∧ extractStatusCodeType (formatHex8 0xC0000002) ≠ (decodeStatusType 0xC0000002, none) := by
  decide

/-- C19 (amended): for every string `s` that begins neither with `V` nor with
a white-space character, and for both values of `isError`,
`DecodeStatusValue ("V" ++ s) isError` and `DecodeStatusValue s isError` return
the same three descriptions and the same error (both succeed or both fail). -/
theorem DecodeStatusValue_optional_V (s : String) (isError : Bool)
    (hV : s.data.head? ≠ some 'V')
    (hW : ∀ c, s.data.head? = some c → isSpace c = false) :
    DecodeStatusValue ("V" ++ s) isError = DecodeStatusValue s isError := by
  obtain ⟨l⟩ := s
  simp only at hV hW
  have h1 : TrimSpace ("V" ++ (⟨l⟩ : String)) = ⟨'V' :: (TrimSpace ⟨l⟩).data⟩ :=
    TrimSpace_cons_V l hW
  have h2 : TrimPrefix ⟨'V' :: (TrimSpace ⟨l⟩).data⟩ "V" = TrimSpace ⟨l⟩ :=
    TrimPrefix_cons_eq 'V' _
  have h3 : TrimPrefix (TrimSpace ⟨l⟩) "V" = TrimSpace ⟨l⟩ := by
    cases hd : (TrimSpace ⟨l⟩).data with
    | nil =>
      have : TrimSpace ⟨l⟩ = ⟨[]⟩ := by
        cases ht : TrimSpace ⟨l⟩; rw [ht] at hd; simp at hd; rw [hd]
      rw [this]; rfl
    | cons a r =>
      have ha := TrimSpace_head l hW a (by rw [hd]; rfl)
      have hne : a ≠ 'V' := by
        intro he; subst he; exact hV ha
      have : TrimSpace ⟨l⟩ = ⟨a :: r⟩ := by
        cases ht : TrimSpace ⟨l⟩; rw [ht] at hd; simp at hd; rw [hd]
      rw [this]
      exact TrimPrefix_cons_ne a 'V' r hne
  have hx : extractStatusCodeValue (TrimSpace ("V" ++ (⟨l⟩ : String)))
      = extractStatusCodeValue (TrimSpace ⟨l⟩) := by
    unfold extractStatusCodeValue
    simp only []
    rw [h1, h2, h3]
  unfold DecodeStatusValue
  simp only []
  rw [hx]

/-- Witness of C19 (amended) at `s = "03020003"`. -/
theorem DecodeStatusValue_optional_V_witness :
    DecodeStatusValue ("V" ++ "03020003") false = DecodeStatusValue "03020003" false :=
  DecodeStatusValue_optional_V "03020003" false (by decide)
    (by intro c hc; simp at hc; subst hc; decide)

/-- Counterexample to C19 as stated: `s = " 03020003"` does not begin with `V`;
`DecodeStatusValue s false` succeeds (the leading space is trimmed) while
`DecodeStatusValue ("V" ++ s) false` fails (the space after `V` stays). -/
theorem DecodeStatusValue_optional_V_counterexample :
    (" 03020003" : String).data.head? ≠ some 'V'
    ∧ (DecodeStatusValue " 03020003" false).2.2.2 = none
    ∧ (DecodeStatusValue ("V" ++ " 03020003") false).2.2.2 ≠ none
    ∧ (DecodeStatusValue " 03020003" false).1 ≠ (DecodeStatusValue ("V" ++ " 03020003") false).1 := by
  decide

/-- C20 (the code at the failing input): the severity byte `0x90` is described
as `"Uncovered Error"`, while the layout comment of `PiStatusCode.go` documents
`0x90` as `Unrecovered`; the bytes `0x40`, `0x80` and `0xA0` are described as
documented. -/
theorem DecodeStatusType_severity_0x90 :
    DecodeStatusType "C90000002" = ("Error Code", "Uncovered Error", none)
    ∧ (DecodeStatusType "C90000002").2.1 ≠ "Unrecovered Error"
    ∧ (DecodeStatusType "C40000002").2.1 = "Minor Error"
    ∧ (DecodeStatusType "C80000002").2.1 = "Major Error"
    ∧ (DecodeStatusType "CA0000002").2.1 = "Uncontained Error" := by
  decide

/-! ## Lemmas: unknown subclasses and losslessness -/

theorem decodeOperation_gap (c sc op : Nat) (isError : Bool)
    (hlo : 0x1000 ≤ op) (hhi : op < 0x8000) :
    (c = 1 → 0x0E < sc → decodeOperation ⟨c, sc, op⟩ isError = "Unknown")
    ∧ (c = 2 → sc ≠ 0x00 → sc ≠ 0x01 → sc ≠ 0x02 → sc ≠ 0x06 → sc ≠ 0x07 → sc ≠ 0x08 →
        sc ≠ 0x0B → sc ≠ 0x0C → decodeOperation ⟨c, sc, op⟩ isError = "Unknown")
    ∧ (c = 0 → 0x06 < sc → decodeOperation ⟨c, sc, op⟩ isError
        = (if isError then "Unknown Computing Error Code"
            else "Unknown Computing Progress Code")) := by
  have h1 : ¬ op < 0x1000 := by omega
  have h2 : ¬ 0x8000 ≤ op := by omega
  refine ⟨?_, ?_, ?_⟩
  · rintro rfl hsc
    obtain ⟨n, rfl⟩ : ∃ n, sc = n + 0x0F := ⟨sc - 0x0F, by omega⟩
    cases isError <;> simp [decodeOperation, h1, h2]
  · rintro rfl s0 s1 s2 s6 s7 s8 sB sC
    by_cases hsc : sc ≤ 0x0C
    · interval_cases sc <;> first
        | omega
        | (cases isError <;> simp [decodeOperation, h1, h2])
    · obtain ⟨n, rfl⟩ : ∃ n, sc = n + 0x0D := ⟨sc - 0x0D, by omega⟩
      cases isError <;> simp [decodeOperation, h1, h2]
  · rintro rfl hsc
    obtain ⟨n, rfl⟩ : ∃ n, sc = n + 0x07 := ⟨sc - 0x07, by omega⟩
    cases isError <;> simp [decodeOperation, h1, h2]

theorem decodeStatusValue_arith (v : Nat) (hv : v < 2 ^ 32) :
    decodeStatusValue v = ⟨v / 2 ^ 24, v / 2 ^ 16 % 2 ^ 8, v % 2 ^ 16⟩ := by
  have h1 : ((v &&& 0xFF000000) >>> 24) % 2 ^ 8 = v / 2 ^ 24 := by
    rw [shiftRight_and]
    show (v >>> 24 &&& (2 ^ 8 - 1)) % 2 ^ 8 = v / 2 ^ 24
    rw [and_mask_mod, Nat.and_pow_two_sub_one_eq_mod, Nat.shiftRight_eq_div_pow]
    apply Nat.mod_eq_of_lt
    omega
  have h2 : ((v &&& 0x00FF0000) >>> 16) % 2 ^ 8 = v / 2 ^ 16 % 2 ^ 8 := by
    rw [shiftRight_and]
    show (v >>> 16 &&& (2 ^ 8 - 1)) % 2 ^ 8 = v / 2 ^ 16 % 2 ^ 8
    rw [and_mask_mod, Nat.and_pow_two_sub_one_eq_mod, Nat.shiftRight_eq_div_pow]
  have h3 : (v &&& 0x0000FFFF) % 2 ^ 16 = v % 2 ^ 16 := by
    show (v &&& (2 ^ 16 - 1)) % 2 ^ 16 = v % 2 ^ 16
    rw [and_mask_mod, Nat.and_pow_two_sub_one_eq_mod]
  show EFIStatusCodeValue.mk _ _ _ = _
  show EFIStatusCodeValue.mk (((v &&& 0xFF000000) >>> 24) % 2 ^ 8)
      (((v &&& 0x00FF0000) >>> 16) % 2 ^ 8) ((v &&& 0x0000FFFF) % 2 ^ 16) = _
  rw [h1, h2, h3]

theorem pack_fields (c sc op : Nat) (hsc : sc < 2 ^ 8) (hop : op < 2 ^ 16) :
    (c <<< 24) ||| (sc <<< 16) ||| op = 2 ^ 24 * c + 2 ^ 16 * sc + op := by
  rw [Nat.shiftLeft_eq, Nat.shiftLeft_eq, Nat.or_assoc, Nat.mul_comm sc, Nat.mul_comm c,
    ← Nat.mul_add_lt_is_or hop sc,
    ← Nat.mul_add_lt_is_or (show 2 ^ 16 * sc + op < 2 ^ 24 by omega) c]
  omega

/-! ## Lemmas: table keys and the cleared bit -/

theorem operationTable_keys_lt (c sc : Nat) (isError : Bool) (T : GoMap)
    (hT : operationTable c sc isError = some T) : ∀ p ∈ T, p.1 < 0x1000 := by
  have hc : c ≤ 3 := by
    by_contra hn
    obtain ⟨n, rfl⟩ : ∃ n, c = n + 4 := ⟨c - 4, by omega⟩
    cases isError <;> simp [operationTable] at hT
  have hsc : sc ≤ 0x14 := by
    by_contra hn
    obtain ⟨n, rfl⟩ : ∃ n, sc = n + 0x15 := ⟨sc - 0x15, by omega⟩
    interval_cases c <;> cases isError <;> simp [operationTable] at hT
  interval_cases c <;> cases isError <;> interval_cases sc <;>
    first
    | (simp [operationTable] at hT; done)
    | (simp only [operationTable, Option.some.injEq] at hT; subst hT; decide)

theorem andNot16_ge (op : Nat) (hlo : 0x2000 ≤ op) (hhi : op < 0x8000) :
    0x1000 ≤ andNot16 op 0x1000 := by
  obtain ⟨i, hi, hbit⟩ := Nat.ge_two_pow_implies_high_bit_true (show op ≥ 2 ^ 13 by omega)
  have h12 : i ≠ 12 := by omega
  have hb : (andNot16 op 0x1000).testBit i = true := by
    rw [andNot16_testBit op (by omega) i, hbit]
    simp [h12]
  have hge := Nat.testBit_implies_ge hb
  have hpow : 2 ^ 13 ≤ 2 ^ i := Nat.pow_le_pow_right (by decide) hi
  omega

theorem lookup_none_of_keys_lt (m : GoMap) (k b : Nat) (hm : ∀ p ∈ m, p.1 < b) (hk : b ≤ k) :
    m.lookup k = none := by
  cases hl : m.lookup k with
  | none => rfl
  | some d =>
    have := hm _ (lookup_mem m k d hl)
    simp only at this
    omega

/-! ## Lemmas: error mode descriptions -/

theorem getD_unknown_no_progress (m : GoMap) (hm : ∀ p ∈ m, ¬ HasProgress p.2) (k : Nat) :
    ¬ HasProgress ((m.lookup k).getD "Unknown") := by
  cases hl : m.lookup k with
  | none => decide
  | some d => exact hm _ (lookup_mem m k d hl)

theorem commonTable_error_no_progress (c : Nat) :
    ∀ p ∈ commonTable c true, ¬ HasProgress p.2 := by
  by_cases hc : c ≤ 3
  · interval_cases c <;> decide
  · obtain ⟨n, rfl⟩ : ∃ n, c = n + 4 := ⟨c - 4, by omega⟩
    intro p hp
    simp [commonTable] at hp

theorem operationTable_error_no_progress (c sc : Nat) (T : GoMap)
    (hT : operationTable c sc true = some T) : ∀ p ∈ T, ¬ HasProgress p.2 := by
  have hc : c ≤ 3 := by
    by_contra hn
    obtain ⟨n, rfl⟩ : ∃ n, c = n + 4 := ⟨c - 4, by omega⟩
    simp [operationTable] at hT
  have hsc : sc ≤ 0x14 := by
    by_contra hn
    obtain ⟨n, rfl⟩ : ∃ n, sc = n + 0x15 := ⟨sc - 0x15, by omega⟩
    interval_cases c <;> simp [operationTable] at hT
  interval_cases c <;> interval_cases sc <;>
    first
    | (simp [operationTable] at hT; done)
    | (simp only [operationTable, Option.some.injEq] at hT; subst hT; decide)

theorem fallback_error_no_progress (c sc : Nat) (hc : c ≤ 3)
    (hT : operationTable c sc true = none) (hx : ¬ (c = 0 ∧ sc = 3)) :
    ¬ HasProgress (if decodeOperation ⟨c, sc, 0x1000⟩ true = "" then "Unknown"
      else decodeOperation ⟨c, sc, 0x1000⟩ true) := by
  by_cases hsc : sc ≤ 0x14
  · interval_cases c <;> interval_cases sc <;>
      first
      | decide
      | exact absurd hT (by decide)
      | exact absurd (And.intro rfl rfl) hx
  · obtain ⟨n, rfl⟩ : ∃ n, sc = n + 0x15 := ⟨sc - 0x15, by omega⟩
    interval_cases c <;> simp [decodeOperation] <;> decide

theorem error_mode_no_progress (s : String) (v : EFIStatusCodeValue)
    (h : extractStatusCodeValue (TrimSpace s) = (v, none))
    (hx : ¬ (v.Class = 0x00 ∧ v.Subclass = 0x03 ∧ 0x1000 ≤ v.Operation ∧ v.Operation < 0x8000)) :
    ¬ HasProgress (DecodeStatusValue s true).2.2.1 := by
  have hop := (DecodeStatusValue_of_ok s true v h).2
  by_cases hc : v.Class ≤ 3
  · by_cases h1 : v.Operation < 0x1000
    · rw [DecodeStatusValue_common_aux s true v h hc h1]
      exact getD_unknown_no_progress _ (commonTable_error_no_progress v.Class) _
    · by_cases h2 : 0x8000 ≤ v.Operation
      · obtain ⟨c, sc, op⟩ := v
        rw [hop, decodeOperation_oem c sc op true hc h2]
        decide
      · cases hT : operationTable v.Class v.Subclass true with
        | some T =>
          rw [DecodeStatusValue_table_aux s true v h T hT (by omega) (by omega)]
          exact getD_unknown_no_progress T
            (operationTable_error_no_progress v.Class v.Subclass T hT) _
        | none =>
          obtain ⟨c, sc, op⟩ := v
          simp only at hc h1 h2 hT hx
          rw [hop, decodeOperation_subclass_tier c sc op true hc (by omega) (by omega), hT]
          exact fallback_error_no_progress c sc hc hT (fun hh => hx ⟨hh.1, hh.2, by omega, by omega⟩)
  · obtain ⟨c, sc, op⟩ := v
    rw [hop, decodeOperation_unknown_class c sc op true (by simp at hc; omega)]
    decide

/-! ## Lemmas: surrounding white space and prefixes -/

theorem isSpace_of_isAsciiBlank (c : Char) (h : isAsciiBlank c = true) : isSpace c = true := by
  unfold isAsciiBlank at h
  simp only [Bool.or_eq_true, beq_iff_eq] at h
  rcases h with (rfl | rfl) | rfl <;> decide

theorem dropWhile_append_all (p : Char → Bool) (l x : List Char) (h : ∀ c ∈ l, p c = true) :
    (l ++ x).dropWhile p = x.dropWhile p := by
  induction l with
  | nil => rfl
  | cons a t ih =>
    have ha : p a = true := h a (List.mem_cons_self a t)
    simp only [List.cons_append, List.dropWhile_cons, ha, if_true]
    exact ih (fun c hc => h c (List.mem_cons_of_mem a hc))

theorem trimRight_append_all (p : Char → Bool) (x r : List Char) (h : ∀ c ∈ r, p c = true) :
    ((x ++ r).reverse.dropWhile p).reverse = (x.reverse.dropWhile p).reverse := by
  rw [List.reverse_append, dropWhile_append_all p r.reverse x.reverse
    (fun c hc => h c (List.mem_reverse.mp hc))]

theorem dropWhile_append_right (p : Char → Bool) (x r : List Char) (h : ∀ c ∈ r, p c = true) :
    (((x ++ r).dropWhile p).reverse.dropWhile p).reverse
      = ((x.dropWhile p).reverse.dropWhile p).reverse := by
  induction x with
  | nil =>
    have hall : ∀ l : List Char, (∀ c ∈ l, p c = true) → l.dropWhile p = [] := by
      intro l hl
      have := dropWhile_append_all p l [] hl
      simpa using this
    simp only [List.nil_append, hall r h]
    rfl
  | cons a t ih =>
    cases ha : p a with
    | true => simp only [List.cons_append, List.dropWhile_cons, ha, if_true]; exact ih
    | false =>
      simp only [List.cons_append, List.dropWhile_cons, ha]
      exact trimRight_append_all p (a :: t) r h

theorem TrimSpace_pad (l s r : List Char) (hl : ∀ c ∈ l, isSpace c = true)
    (hr : ∀ c ∈ r, isSpace c = true) :
    TrimSpace ⟨l ++ s ++ r⟩ = TrimSpace ⟨s⟩ := by
  unfold TrimSpace
  simp only [List.append_assoc]
  rw [dropWhile_append_all isSpace l (s ++ r) hl, dropWhile_append_right isSpace s r hr]

theorem TrimSpace_cons_data (c : Char) (l : List Char) (hc : isSpace c = false) :
    (TrimSpace ⟨c :: l⟩).data = c :: (l.reverse.dropWhile isSpace).reverse := by
  unfold TrimSpace
  have h1 : (c :: l).dropWhile isSpace = c :: l := by simp [List.dropWhile, hc]
  simp only [h1, List.reverse_cons, dropWhile_append_singleton isSpace c hc,
    List.reverse_append, List.reverse_singleton, List.singleton_append, List.reverse_nil,
    List.nil_append]

theorem trimRight_cons (c : Char) (l : List Char) (hc : isSpace c = false) :
    ((c :: l).reverse.dropWhile isSpace).reverse = c :: (l.reverse.dropWhile isSpace).reverse := by
  simp only [List.reverse_cons, dropWhile_append_singleton isSpace c hc,
    List.reverse_append, List.reverse_singleton, List.singleton_append, List.reverse_nil,
    List.nil_append]

theorem DecodeStatusValue_of_bad_head (s : String) (isError : Bool) (c : Char) (t : List Char)
    (hd : (TrimPrefix (TrimSpace s) "V").data = c :: t) (hc : isHexDigit c = false) :
    ∃ e, DecodeStatusValue s isError = ("", "", "", some e) := by
  obtain ⟨e, he⟩ := extract_err (TrimSpace s) (by
    rintro ⟨_, hall, _⟩
    have := hall c (by rw [hd]; exact List.mem_cons_self c t)
    rw [hc] at this
    exact absurd this (by decide))
  exact ⟨_, DecodeStatusValue_of_err s isError _ e he⟩

/-! # Main results: gaps, losslessness, white space and prefixes -/

/-- C21: for an operation in `[0x1000, 0x8000)`, in both modes: for class
`0x01` (Peripheral) with subclass `> 0x0E`, and for class `0x02` (I/O Bus) with
subclass not in `{0x00, 0x01, 0x02, 0x06, 0x07, 0x08, 0x0B, 0x0C}`, the
operation resolves to exactly `"Unknown"` (from `decodeOperation` and so from
`DecodeStatusValue`); for class `0x00` (Computing) with subclass `> 0x06` it
resolves to `"Unknown Computing Error Code"` or
`"Unknown Computing Progress Code"` according to `isError`. -/
theorem DecodeStatusValue_subclass_gap (s : String) (isError : Bool) (v : EFIStatusCodeValue)
    (h : extractStatusCodeValue (TrimSpace s) = (v, none))
    (hlo : 0x1000 ≤ v.Operation) (hhi : v.Operation < 0x8000) :
    (v.Class = 0x01 → 0x0E < v.Subclass →
      decodeOperation v isError = "Unknown"
      ∧ (DecodeStatusValue s isError).2.2.1 = "Unknown")
    ∧ (v.Class = 0x02 → v.Subclass ∉ [0x00, 0x01, 0x02, 0x06, 0x07, 0x08, 0x0B, 0x0C] →
        decodeOperation v isError = "Unknown"
        ∧ (DecodeStatusValue s isError).2.2.1 = "Unknown")
    ∧ (v.Class = 0x00 → 0x06 < v.Subclass →
        decodeOperation v isError
          = (if isError then "Unknown Computing Error Code"
              else "Unknown Computing Progress Code")
        ∧ (DecodeStatusValue s isError).2.2.1
          = (if isError then "Unknown Computing Error Code"
              else "Unknown Computing Progress Code")) := by
  have hop := (DecodeStatusValue_of_ok s isError v h).2
  obtain ⟨c, sc, op⟩ := v
  simp only at hlo hhi hop ⊢
  obtain ⟨g1, g2, g0⟩ := decodeOperation_gap c sc op isError hlo hhi
  refine ⟨?_, ?_, ?_⟩
  · intro hc hsc
    have := g1 hc hsc
    rw [hop, this]
    exact ⟨rfl, rfl⟩
  · intro hc hsc
    simp only [List.mem_cons, List.mem_singleton, List.not_mem_nil, or_false, not_or] at hsc
    obtain ⟨s0, s1, s2, s6, s7, s8, sB, sC⟩ := hsc
    have := g2 hc s0 s1 s2 s6 s7 s8 sB sC
    rw [hop, this]
    exact ⟨rfl, rfl⟩
  · intro hc hsc
    have := g0 hc hsc
    rw [hop, this]
    cases isError <;> exact ⟨rfl, rfl⟩

/-- Witness of C21 at `"V020F1000"`: class `0x02`, subclass `0x0F`, operation
`0x1000`, error mode. -/
theorem DecodeStatusValue_subclass_gap_witness :
    extractStatusCodeValue (TrimSpace "V020F1000") = (⟨0x02, 0x0F, 0x1000⟩, none)
    ∧ decodeOperation ⟨0x02, 0x0F, 0x1000⟩ true = "Unknown"
    ∧ (DecodeStatusValue "V020F1000" true).2.2.1 = "Unknown" := by
  have h : extractStatusCodeValue (TrimSpace "V020F1000") = (⟨0x02, 0x0F, 0x1000⟩, none) := by
    decide
  exact ⟨h, (DecodeStatusValue_subclass_gap "V020F1000" true ⟨0x02, 0x0F, 0x1000⟩ h
    (by decide) (by decide)).2.1 rfl (by decide)⟩

/-- C22: for every status value whose class byte is outside `{0,1,2,3}`,
`decodeOperation` returns `"Unknown"` for every subclass byte, every operation
in `[0x0000, 0xFFFF]` (the OEM range `≥ 0x8000` included) and both modes. -/
theorem decodeOperation_class_outside (c sc op : Nat) (isError : Bool) (hc : 4 ≤ c) (hc' : c ≤ 0xFF)
    (hsc : sc ≤ 0xFF) (hop : op ≤ 0xFFFF) :
    decodeOperation ⟨c, sc, op⟩ isError = "Unknown" := by
  have _ := hc'
  have _ := hsc
  have _ := hop
  exact decodeOperation_unknown_class c sc op isError hc

/-- Witness of C22 at class `0xFF`, subclass `0x00`, operation `0x8000`, error
mode. -/
theorem decodeOperation_class_outside_witness :
    decodeOperation ⟨0xFF, 0x00, 0x8000⟩ true = "Unknown" :=
  decodeOperation_class_outside 0xFF 0x00 0x8000 true (by decide) (by decide) (by decide)
    (by decide)

/-- C23: `decodeStatusValue` is lossless: for every 32-bit unsigned `v`, with
`r = decodeStatusValue v`, `(r.Class << 24) | (r.Subclass << 16) | r.Operation`
(in 32 bits) equals `v`; hence `decodeStatusValue` is injective on 32-bit
values. -/
theorem decodeStatusValue_lossless (v : Nat) (hv : v < 2 ^ 32) :
    (((decodeStatusValue v).Class <<< 24) ||| ((decodeStatusValue v).Subclass <<< 16)
        ||| (decodeStatusValue v).Operation) % 2 ^ 32 = v
    ∧ (∀ w, w < 2 ^ 32 → decodeStatusValue w = decodeStatusValue v → w = v) := by
  have hpack : ∀ u, u < 2 ^ 32 →
      (((decodeStatusValue u).Class <<< 24) ||| ((decodeStatusValue u).Subclass <<< 16)
        ||| (decodeStatusValue u).Operation) % 2 ^ 32 = u := by
    intro u hu
    rw [decodeStatusValue_arith u hu]
    simp only
    rw [pack_fields _ _ _ (Nat.mod_lt _ (by norm_num)) (Nat.mod_lt _ (by norm_num))]
    omega
  refine ⟨hpack v hv, ?_⟩
  intro w hw he
  have h1 := hpack w hw
  rw [he, hpack v hv] at h1
  exact h1.symm

/-- Witness of C23 at `v = 0x03058002`. -/
theorem decodeStatusValue_lossless_witness :
    (0x03058002 : Nat) < 2 ^ 32
    ∧ (((decodeStatusValue 0x03058002).Class <<< 24)
        ||| ((decodeStatusValue 0x03058002).Subclass <<< 16)
        ||| (decodeStatusValue 0x03058002).Operation) % 2 ^ 32 = 0x03058002 :=
  ⟨by decide, (decodeStatusValue_lossless 0x03058002 (by decide)).1⟩

/-- C24: every operation table has its keys below `0x1000`, and only bit 12 of
the operation is cleared; so for every (class, subclass, mode) cell that
dispatches to an operation table and every operation in `[0x2000, 0x8000)` the
operation description returned by `DecodeStatusValue` is `"Unknown"`, and a
table entry is reached only by an operation in `[0x1000, 0x2000)`. -/
theorem DecodeStatusValue_high_operation_unknown (s : String) (isError : Bool) (v : EFIStatusCodeValue) (T : GoMap)
    (h : extractStatusCodeValue (TrimSpace s) = (v, none))
    (hT : operationTable v.Class v.Subclass isError = some T)
    (hlo : 0x1000 ≤ v.Operation) (hhi : v.Operation < 0x8000) :
    (∀ p ∈ T, p.1 < 0x1000)
    ∧ (0x2000 ≤ v.Operation → (DecodeStatusValue s isError).2.2.1 = "Unknown")
    ∧ (∀ d, T.lookup (andNot16 v.Operation 0x1000) = some d → v.Operation < 0x2000) := by
  have hkeys := operationTable_keys_lt v.Class v.Subclass isError T hT
  have hnone : 0x2000 ≤ v.Operation → T.lookup (andNot16 v.Operation 0x1000) = none := by
    intro h2
    exact lookup_none_of_keys_lt T _ 0x1000 hkeys (andNot16_ge v.Operation h2 hhi)
  refine ⟨hkeys, ?_, ?_⟩
  · intro h2
    rw [DecodeStatusValue_table_aux s isError v h T hT hlo hhi, hnone h2]
    rfl
  · intro d hd
    by_contra hn
    rw [hnone (by omega)] at hd
    exact absurd hd (by simp)

/-- Witness of C24 at `"V00012003"`: class `0x00`, subclass `0x01`, operation
`0x2003`, progress mode (index `0x2003`, no entry). -/
theorem DecodeStatusValue_high_operation_unknown_witness :
    extractStatusCodeValue (TrimSpace "V00012003") = (⟨0x00, 0x01, 0x2003⟩, none)
    ∧ (DecodeStatusValue "V00012003" false).2.2.1 = "Unknown" := by
  have h : extractStatusCodeValue (TrimSpace "V00012003") = (⟨0x00, 0x01, 0x2003⟩, none) := by
    decide
  exact ⟨h, (DecodeStatusValue_high_operation_unknown "V00012003" false ⟨0x00, 0x01, 0x2003⟩ cUHPProgressCodeDesc h rfl
    (by decide) (by decide)).2.1 (by decide)⟩

/-- C25 (the code at the failing input): in error mode `"V00031000"` (class
`0x00`, subclass `0x03`, operation `0x1000`) gets the operation description
`"I/O Processor Progress Code"`, which contains `Progress`.  This cell
(Computing, I/O Processor, operation in `[0x1000, 0x8000)`) is the only one:
every other successfully decoded input in error mode has an operation
description without `Progress`. -/
theorem DecodeStatusValue_error_mode_progress :
    extractStatusCodeValue (TrimSpace "V00031000") = (⟨0x00, 0x03, 0x1000⟩, none)
    ∧ DecodeStatusValue "V00031000" true
        = ("Computing", "I/O Processor", "I/O Processor Progress Code", none)
    ∧ HasProgress (DecodeStatusValue "V00031000" true).2.2.1
    ∧ (∀ (s : String) (v : EFIStatusCodeValue),
        extractStatusCodeValue (TrimSpace s) = (v, none) →
        ¬ (v.Class = 0x00 ∧ v.Subclass = 0x03 ∧ 0x1000 ≤ v.Operation ∧ v.Operation < 0x8000) →
        ¬ HasProgress (DecodeStatusValue s true).2.2.1) :=
  ⟨by decide, by decide, by decide, error_mode_no_progress⟩

/-- C26: for every status value with class `0x03` and subclass `0x0E`,
`DecodeStatusValue` returns the subclass description `"Unknown"`, yet for an
operation in `[0x1000, 0x8000)` the operation description is not the
unknown-subclass fallback: in error mode it is
`swIPFErrorCodeDesc[operation &^ 0x1000]` or `"Unknown"` (`"V030E1000"` gives
`"ALT DTLB"`), and in progress mode it is
`"Unknown IPF Exception Progress Code"`. -/
theorem DecodeStatusValue_software_0E (s : String) (isError : Bool) (v : EFIStatusCodeValue)
    (h : extractStatusCodeValue (TrimSpace s) = (v, none))
    (hc : v.Class = 0x03) (hsc : v.Subclass = 0x0E) :
    (DecodeStatusValue s isError).2.1 = "Unknown"
    ∧ (0x1000 ≤ v.Operation → v.Operation < 0x8000 → isError = true →
        (DecodeStatusValue s isError).2.2.1
          = (swIPFErrorCodeDesc.lookup (andNot16 v.Operation 0x1000)).getD "Unknown"
        ∧ (DecodeStatusValue s isError).2.2.1 ≠ "Unknown Software Error Code")
    ∧ (0x1000 ≤ v.Operation → v.Operation < 0x8000 → isError = false →
        (DecodeStatusValue s isError).2.2.1 = "Unknown IPF Exception Progress Code"
        ∧ (DecodeStatusValue s isError).2.2.1 ≠ "Unknown Software Progress Code")
    ∧ (DecodeStatusValue "V030E1000" true).2.2.1 = "ALT DTLB" := by
  have hsub := DecodeStatusValue_subclass_aux s isError v h
  have hop := (DecodeStatusValue_of_ok s isError v h).2
  obtain ⟨c, sc, op⟩ := v
  simp only at hc hsc hsub hop ⊢
  subst hc hsc
  refine ⟨?_, ?_, ?_, by decide⟩
  · rw [hsub]; decide
  · rintro hlo hhi rfl
    have ht := DecodeStatusValue_table_aux s true ⟨3, 0x0E, op⟩ h swIPFErrorCodeDesc rfl hlo hhi
    simp only at ht
    refine ⟨ht, ?_⟩
    rw [ht]
    cases hl : swIPFErrorCodeDesc.lookup (andNot16 op 0x1000) with
    | none => decide
    | some d =>
      have hmem := lookup_mem _ _ _ hl
      have hall : ∀ p ∈ swIPFErrorCodeDesc, p.2 ≠ "Unknown Software Error Code" := by decide
      exact hall _ hmem
  · rintro hlo hhi rfl
    have hd : decodeOperation ⟨3, 0x0E, op⟩ false = "Unknown IPF Exception Progress Code" := by
      rw [decodeOperation_subclass_tier 3 0x0E op false (by decide) hlo hhi]
      rfl
    rw [hop, hd]
    exact ⟨by decide, by decide⟩

/-- Witness of C26 at `"V030E1000"`, error mode. -/
theorem DecodeStatusValue_software_0E_witness :
    extractStatusCodeValue (TrimSpace "V030E1000") = (⟨0x03, 0x0E, 0x1000⟩, none)
    ∧ (DecodeStatusValue "V030E1000" true).2.1 = "Unknown" := by
  have h : extractStatusCodeValue (TrimSpace "V030E1000") = (⟨0x03, 0x0E, 0x1000⟩, none) := by
    decide
  exact ⟨h, (DecodeStatusValue_software_0E "V030E1000" true ⟨0x03, 0x0E, 0x1000⟩ h rfl rfl).1⟩

/-- C27: `DecodeStatusValue` ignores surrounding white space: for every string
`s` and all strings `l`, `r` made only of ASCII spaces, tabs and newlines,
`DecodeStatusValue (l ++ s ++ r) isError` equals `DecodeStatusValue s isError`
in all four results; in particular `" V03020003 "` decodes exactly like
`"V03020003"`. -/
theorem DecodeStatusValue_ignores_blanks (s l r : String) (isError : Bool)
    (hl : ∀ c ∈ l.data, isAsciiBlank c = true) (hr : ∀ c ∈ r.data, isAsciiBlank c = true) :
    DecodeStatusValue (l ++ s ++ r) isError = DecodeStatusValue s isError
    ∧ DecodeStatusValue " V03020003 " isError = DecodeStatusValue "V03020003" isError := by
  have key : ∀ (l s r : String), (∀ c ∈ l.data, isAsciiBlank c = true) →
      (∀ c ∈ r.data, isAsciiBlank c = true) →
      DecodeStatusValue (l ++ s ++ r) isError = DecodeStatusValue s isError := by
    intro l s r hl hr
    have ht : TrimSpace (l ++ s ++ r) = TrimSpace s :=
      TrimSpace_pad l.data s.data r.data (fun c hc => isSpace_of_isAsciiBlank c (hl c hc))
        (fun c hc => isSpace_of_isAsciiBlank c (hr c hc))
    unfold DecodeStatusValue
    simp only []
    rw [ht]
  refine ⟨key l s r hl hr, ?_⟩
  exact key " " "V03020003" " " (by decide) (by decide)

/-- Witness of C27 with `l` a tab and a space, `r` a space and a newline. -/
theorem DecodeStatusValue_ignores_blanks_witness :
    DecodeStatusValue ("\t " ++ "V03020003" ++ " \n") false = DecodeStatusValue "V03020003" false :=
  (DecodeStatusValue_ignores_blanks "V03020003" "\t " " \n" false (by decide) (by decide)).1

/-- C28: the value prefix is case-sensitive and stripped at most once: for
every string `s`, `DecodeStatusValue ("v" ++ s) isError` and
`DecodeStatusValue ("VV" ++ s) isError` return a non-nil error with three empty
descriptions, even when `s` is a valid 8-digit hexadecimal string such as
`"03020003"` (which decodes with a single `V`). -/
theorem DecodeStatusValue_prefix_case_once (s : String) (isError : Bool) :
    (∃ e, DecodeStatusValue ("v" ++ s) isError = ("", "", "", some e))
    ∧ (∃ e, DecodeStatusValue ("VV" ++ s) isError = ("", "", "", some e))
    ∧ (DecodeStatusValue "v03020003" isError).2.2.2 ≠ none
    ∧ (DecodeStatusValue "VV03020003" isError).2.2.2 ≠ none
    ∧ (DecodeStatusValue "V03020003" isError).2.2.2 = none := by
  obtain ⟨l⟩ := s
  refine ⟨?_, ?_, ?_, ?_, ?_⟩
  · have h1 : (TrimSpace ("v" ++ (⟨l⟩ : String))).data
        = 'v' :: (l.reverse.dropWhile isSpace).reverse :=
      TrimSpace_cons_data 'v' l (by decide)
    have h2 : TrimPrefix (TrimSpace ("v" ++ (⟨l⟩ : String))) "V"
        = ⟨'v' :: (l.reverse.dropWhile isSpace).reverse⟩ := by
      have : TrimSpace ("v" ++ (⟨l⟩ : String)) = ⟨'v' :: (l.reverse.dropWhile isSpace).reverse⟩ := by
        cases ht : TrimSpace ("v" ++ (⟨l⟩ : String)); rw [ht] at h1; simp at h1; rw [h1]
      rw [this]
      exact TrimPrefix_cons_ne 'v' 'V' _ (by decide)
    exact DecodeStatusValue_of_bad_head _ isError 'v' _ (by rw [h2]) (by decide)
  · have h1 : (TrimSpace ("VV" ++ (⟨l⟩ : String))).data
        = 'V' :: 'V' :: (l.reverse.dropWhile isSpace).reverse := by
      have := TrimSpace_cons_data 'V' ('V' :: l) (by decide)
      rw [trimRight_cons 'V' l (by decide)] at this
      exact this
    have h2 : TrimPrefix (TrimSpace ("VV" ++ (⟨l⟩ : String))) "V"
        = ⟨'V' :: (l.reverse.dropWhile isSpace).reverse⟩ := by
      have : TrimSpace ("VV" ++ (⟨l⟩ : String))
          = ⟨'V' :: 'V' :: (l.reverse.dropWhile isSpace).reverse⟩ := by
        cases ht : TrimSpace ("VV" ++ (⟨l⟩ : String)); rw [ht] at h1; simp at h1; rw [h1]
      rw [this]
      exact TrimPrefix_cons_eq 'V' _
    exact DecodeStatusValue_of_bad_head _ isError 'V' _ (by rw [h2]) (by decide)
  · cases isError <;> decide
  · cases isError <;> decide
  · cases isError <;> decide

end Edk2
